import Mathlib

/-!
Verification of the mgmterror error-model library (NETCONF / YANG / vendor
structured errors) against its specification.

The Go sources are shallowly embedded: the canonical error record
(`MgmtError`), the info-tag codec, the three classification catalogs, the
typed-error constructors, the reverse classifier and the error-list
aggregator are translated into executable Lean definitions.  The JSON and
XML wire formats are modelled structurally (`JVal` and `Xml` syntax trees):
string escaping and XML namespace prefixing of the concrete byte syntax are
abstracted, while everything the library itself computes (keys, module
prefixes, field lists, element order, omit-empty behaviour) is modelled
faithfully from the source.
-/

/-! ## Core data model (mgmterror.go) -/

/-- Model of Go `xml.Name`: a namespace-qualified name. -/
structure XName where
  Space : String
  Local : String
deriving DecidableEq, Repr

/-- `MgmtErrorInfoTag` holds additional information for an error:
a namespace-qualified name together with its character-data value. -/
structure MgmtErrorInfoTag where
  XMLName : XName
  Value : String
deriving DecidableEq, Repr

/-- `MgmtErrorInfo` is the ordered list of info tags of an error. -/
def MgmtErrorInfo := List MgmtErrorInfoTag
deriving DecidableEq

/-- The canonical error record, based on RFC6241 Sect 4.3. -/
structure MgmtError where
  XMLName : XName
  Typ : String
  Tag : String
  Severity : String
  AppTag : String
  Path : String
  Message : String
  Info : List MgmtErrorInfoTag
deriving DecidableEq, Repr

/-- RFC6241 Sect 3.1 module name. -/
def netconf_module : String := "ietf-netconf"

/-- RFC6241 Sect 3.1 namespace. -/
def netconf_namespace : String := "urn:ietf:params:xml:ns:netconf:base:1.0"

/-- RFC6020 Sect 5.3.1 module name (there is no yang module). -/
def yang_module : String := "ietf-yang"

/-- RFC6020 Sect 5.3.1 namespace. -/
def yang_namespace : String := "urn:ietf:params:xml:ns:yang:1"

/-- Vendor module name. -/
def vyattaModule : String := "vyatta-yang"

/-- Vendor namespace. -/
def VyattaNamespace : String := "urn:vyatta.com:mgmt:error:1"

/-- Separator used between fields in error message strings. -/
def error_msg_separator : String := ": "

/-- The fixed XML name every canonical record carries (`setXMLName`). -/
def rpcErrorXMLName : XName :=
  { Space := netconf_namespace, Local := "rpc-error" }

/-- `newMgmtError` builds an empty record with the `rpc-error` XML name set. -/
def newMgmtError : MgmtError :=
  { XMLName := rpcErrorXMLName
    Typ := "", Tag := "", Severity := "", AppTag := "", Path := ""
    Message := "", Info := [] }

/-- `NewMgmtErrorInfoTag` constructs an info tag from namespace, name, value. -/
def NewMgmtErrorInfoTag (ns name value : String) : MgmtErrorInfoTag :=
  { XMLName := { Space := ns, Local := name }, Value := value }

/-- `FindMgmtErrorTag` returns the value of the first info tag matching the
given namespace and local name, or the empty string. -/
def FindMgmtErrorTag (e : List MgmtErrorInfoTag) (ns name : String) : String :=
  match e with
  | [] => ""
  | t :: rest =>
    if t.XMLName.Space = ns ∧ t.XMLName.Local = name then t.Value
    else FindMgmtErrorTag rest ns name

/-! ## String helpers

Models of the Go standard-library string functions the sources use. -/

/-- Split a character list at every occurrence of `c` (model of the list
underlying Go `strings.Split` on a one-character separator). -/
def splitChar (c : Char) : List Char → List (List Char)
  | [] => [[]]
  | x :: xs =>
    let r := splitChar c xs
    if x = c then [] :: r
    else (x :: r.headD []) :: r.tail

/-- Model of Go `strings.Split(s, ":")`: split a string at every colon. -/
def stringSplitColon (s : String) : List String :=
  (splitChar ':' s.data).map (fun l => String.mk l)

/-- Go `strings.isSeparator` restricted to ASCII: a rune is a word separator
for `strings.Title` unless it is a letter, a digit or an underscore. -/
def goIsSeparator (c : Char) : Bool :=
  if '0' ≤ c ∧ c ≤ '9' then false
  else if 'a' ≤ c ∧ c ≤ 'z' then false
  else if 'A' ≤ c ∧ c ≤ 'Z' then false
  else if c = '_' then false
  else true

/-- Character-list worker for `stringsTitle`: upper-case every character
that follows a separator (the flag says whether the previous character was
a separator; it starts out true). -/
def titleChars (prevSep : Bool) : List Char → List Char
  | [] => []
  | c :: cs =>
    (if prevSep then c.toUpper else c) :: titleChars (goIsSeparator c) cs

/-- Model of Go `strings.Title`: upper-case the first letter of every
separator-delimited word. -/
def stringsTitle (s : String) : String :=
  String.mk (titleChars true s.data)

/-- Capitalisation of only the first character of a string.  This states the
specification wording "severity with its first letter capitalized" and is
compared against the source's `strings.Title` call. -/
def capitalizeFirst (s : String) : String :=
  match s.data with
  | [] => ""
  | c :: cs => String.mk (c.toUpper :: cs)

/-- Modelled from the spec: the external `pathutil.Pathstr` helper (package
github.com/danos/utils/pathutil, not part of this repository) renders a
path component list as an absolute slash-separated path, with the empty
list rendering as the empty string (the behaviour the `PathAmbiguousError`
examples rely on). -/
def pathutilPathstr (path : List String) : String :=
  match path with
  | [] => ""
  | _ => "/" ++ String.intercalate "/" path

/-- Modelled from the spec: the external `pathutil.Makepath` helper splits a
slash-separated path string back into its non-empty components. -/
def pathutilMakepath (s : String) : List String :=
  (s.splitOn "/").filter (fun c => c ≠ "")

/-- Model of Go `fmt.Sprintf("%s", slice)`: bracketed, space-joined. -/
def goFmtStringSlice (l : List String) : String :=
  "[" ++ String.intercalate " " l ++ "]"

/-! ## JSON wire model (mgmterror.go JSON codec)

JSON documents are modelled structurally as syntax trees; the only values
the library produces or consumes are strings, arrays and objects. -/

/-- A structural JSON value: string, array or object (ordered fields). -/
inductive JVal where
  | str (s : String)
  | arr (xs : List JVal)
  | obj (fs : List (String × JVal))

/-- `lookupNamespace` maps an RFC7951 module name back to its namespace via
the static 3-entry table; unknown module names pass through unchanged. -/
def lookupNamespace (module : String) : String :=
  if module = netconf_module then netconf_namespace
  else if module = yang_module then yang_namespace
  else if module = vyattaModule then VyattaNamespace
  else module

/-- `lookupModule` maps a namespace to its RFC7951 module name via the
static 3-entry table; unknown namespaces pass through unchanged. -/
def lookupModule (ns : String) : String :=
  if ns = netconf_namespace then netconf_module
  else if ns = yang_namespace then yang_module
  else if ns = VyattaNamespace then vyattaModule
  else ns

/-- The JSON object key `MgmtErrorInfoTag.MarshalJSON` computes: the local
name, prefixed by `lookupModule` of the namespace and a colon whenever the
namespace is non-empty. -/
def infoTagKey (i : MgmtErrorInfoTag) : String :=
  if 0 < i.XMLName.Space.length then
    lookupModule i.XMLName.Space ++ ":" ++ i.XMLName.Local
  else
    i.XMLName.Local

/-- `MgmtErrorInfoTag.MarshalJSON`: a singleton object mapping the computed
key to the value. -/
def infoTagMarshalJSON (i : MgmtErrorInfoTag) : JVal :=
  .obj [(infoTagKey i, .str i.Value)]

/-- `MgmtErrorInfoTag.UnmarshalJSON`: the value must be a singleton object
of strings; the key is split at every colon, a two-part split is mapped
through `lookupNamespace`, any other split leaves the namespace empty and
takes the first part as the local name. -/
def infoTagUnmarshalJSON (j : JVal) : Option MgmtErrorInfoTag :=
  match j with
  | .obj [(k, .str v)] =>
    let s := stringSplitColon k
    if s.length = 2 then
      some { XMLName := { Space := lookupNamespace (s.headD ""),
                          Local := s.getD 1 "" },
             Value := v }
    else
      some { XMLName := { Space := "", Local := s.headD "" }, Value := v }
  | _ => none

/-- Element-wise JSON decoding of an `error-info` array. -/
def decodeInfoListJSON : List JVal → Option (List MgmtErrorInfoTag)
  | [] => some []
  | j :: rest =>
    match infoTagUnmarshalJSON j with
    | none => none
    | some t =>
      match decodeInfoListJSON rest with
      | none => none
      | some ts => some (t :: ts)

/-- JSON marshalling of a `MgmtError` per its struct tags: the fixed key
order `error-type`, `error-tag`, `error-severity`, then the omit-empty
fields `error-app-tag`, `error-path`, `error-message`, `error-info`. -/
def mgmtErrorMarshalJSON (e : MgmtError) : JVal :=
  .obj ([("error-type", .str e.Typ),
         ("error-tag", .str e.Tag),
         ("error-severity", .str e.Severity)]
    ++ (if e.AppTag = "" then [] else [("error-app-tag", .str e.AppTag)])
    ++ (if e.Path = "" then [] else [("error-path", .str e.Path)])
    ++ (if e.Message = "" then [] else [("error-message", .str e.Message)])
    ++ (if e.Info = [] then []
        else [("error-info", .arr (e.Info.map infoTagMarshalJSON))]))

/-- First-match lookup of a key in a JSON object field list. -/
def jLookup : List (String × JVal) → String → Option JVal
  | [], _ => none
  | (k, v) :: fs, key => if k = key then some v else jLookup fs key

/-- Decoding of one string-typed struct field: an absent key leaves the
zero value, a present key must hold a string. -/
def getStrField (fs : List (String × JVal)) (key : String) : Option String :=
  match jLookup fs key with
  | none => some ""
  | some (.str s) => some s
  | some _ => none

/-- JSON unmarshalling of a `MgmtError` as performed by the typed wrappers:
a fresh record from `newMgmtError` (so the XML name is set) is filled from
the object fields; the `error-info` array is decoded element-wise. -/
def mgmtErrorUnmarshalJSON (j : JVal) : Option MgmtError :=
  match j with
  | .obj fs =>
    match getStrField fs "error-type" with
    | none => none
    | some typ =>
    match getStrField fs "error-tag" with
    | none => none
    | some tag =>
    match getStrField fs "error-severity" with
    | none => none
    | some sev =>
    match getStrField fs "error-app-tag" with
    | none => none
    | some apptag =>
    match getStrField fs "error-path" with
    | none => none
    | some path =>
    match getStrField fs "error-message" with
    | none => none
    | some msg =>
    match (match jLookup fs "error-info" with
           | none => some []
           | some (.arr xs) => decodeInfoListJSON xs
           | some _ => none) with
    | none => none
    | some info =>
      some { newMgmtError with
        Typ := typ, Tag := tag, Severity := sev, AppTag := apptag,
        Path := path, Message := msg, Info := info }
  | _ => none

/-! ## XML wire model

XML documents are modelled structurally as trees of namespace-qualified
elements containing child elements and character data; the concrete byte
syntax (escaping, namespace attribute placement) is abstracted. -/

/-- A structural XML node: an element with a qualified name and children,
or character data. -/
inductive Xml where
  | elem (name : XName) (children : List Xml)
  | text (s : String)

/-- XML encoding of one info tag: an element named by the tag's qualified
name whose content is the tag's character data. -/
def infoTagMarshalXML (i : MgmtErrorInfoTag) : Xml :=
  .elem i.XMLName [.text i.Value]

/-- `MgmtErrorInfo.MarshalXML`: an `error-info` element (no namespace of
its own) containing each info tag in order. -/
def infoMarshalXML (info : List MgmtErrorInfoTag) : Xml :=
  .elem { Space := "", Local := "error-info" } (info.map infoTagMarshalXML)

/-- XML marshalling of a `MgmtError` per its struct tags: the fixed child
order `error-type`, `error-tag`, `error-severity`, then the omit-empty
children `error-app-tag`, `error-path`, `error-message`, `error-info`. -/
def mgmtErrorMarshalXML (e : MgmtError) : Xml :=
  .elem e.XMLName
    ([Xml.elem { Space := "", Local := "error-type" } [.text e.Typ],
      Xml.elem { Space := "", Local := "error-tag" } [.text e.Tag],
      Xml.elem { Space := "", Local := "error-severity" } [.text e.Severity]]
    ++ (if e.AppTag = "" then []
        else [Xml.elem { Space := "", Local := "error-app-tag" } [.text e.AppTag]])
    ++ (if e.Path = "" then []
        else [Xml.elem { Space := "", Local := "error-path" } [.text e.Path]])
    ++ (if e.Message = "" then []
        else [Xml.elem { Space := "", Local := "error-message" } [.text e.Message]])
    ++ (if e.Info = [] then [] else [infoMarshalXML e.Info]))

/-- Concatenated character data of a child list (Go `,chardata`). -/
def childTexts : List Xml → String
  | [] => ""
  | .text s :: rest => s ++ childTexts rest
  | .elem _ _ :: rest => childTexts rest

/-- First child element with the given local name. -/
def findChild : List Xml → String → Option Xml
  | [], _ => none
  | .elem n ys :: rest, loc =>
    if n.Local = loc then some (.elem n ys) else findChild rest loc
  | .text _ :: rest, loc => findChild rest loc

/-- Character data of the first child element with the given local name,
or the empty string when no such child exists (the struct field keeps its
zero value). -/
def childFieldText (cs : List Xml) (loc : String) : String :=
  match findChild cs loc with
  | some (.elem _ ys) => childTexts ys
  | _ => ""

/-- `MgmtErrorInfo.UnmarshalXML`: each child element becomes one info tag
(qualified name and character data); loose character data is skipped. -/
def decodeInfoListXML : List Xml → List MgmtErrorInfoTag
  | [] => []
  | .elem n ys :: rest =>
    { XMLName := n, Value := childTexts ys } :: decodeInfoListXML rest
  | .text _ :: rest => decodeInfoListXML rest

/-- XML unmarshalling of a `MgmtError`: the element's own qualified name is
captured in `XMLName`, the string fields come from the identically named
children, and `error-info` children decode element-wise. -/
def mgmtErrorUnmarshalXML (x : Xml) : Option MgmtError :=
  match x with
  | .elem n cs =>
    some { XMLName := n,
           Typ := childFieldText cs "error-type",
           Tag := childFieldText cs "error-tag",
           Severity := childFieldText cs "error-severity",
           AppTag := childFieldText cs "error-app-tag",
           Path := childFieldText cs "error-path",
           Message := childFieldText cs "error-message",
           Info := match findChild cs "error-info" with
                   | some (.elem _ ys) => decodeInfoListXML ys
                   | _ => [] }
  | .text _ => none

/-! ## Concrete JSON rendering (for the error-list wire shape)

A byte-level rendering of the structural JSON values, modelling the output
of Go `encoding/json` (string escaping follows Go's encoder: quotes,
backslashes, common control characters and the HTML-sensitive characters
get escaped). -/

/-- Escape one character as Go `encoding/json` does. -/
def escapeJSONChar (c : Char) : String :=
  if c = '"' then "\\\""
  else if c = '\\' then "\\\\"
  else if c = '\n' then "\\n"
  else if c = '\r' then "\\r"
  else if c = '\t' then "\\t"
  else if c = '<' then "\\u003c"
  else if c = '>' then "\\u003e"
  else if c = '&' then "\\u0026"
  else if c.toNat < 32 then
    "\\u00" ++ String.mk [(Nat.digitChar (c.toNat / 16)), (Nat.digitChar (c.toNat % 16))]
  else String.mk [c]

/-- Escape a string as Go `encoding/json` does. -/
def escapeJSONString (s : String) : String :=
  String.join (s.data.map escapeJSONChar)

mutual

/-- Render a structural JSON value to its concrete syntax. -/
def renderJVal : JVal → String
  | .str s => "\"" ++ escapeJSONString s ++ "\""
  | .arr xs => "[" ++ renderJValList xs ++ "]"
  | .obj fs => "\x7b" ++ renderJFields fs ++ "\x7d"

/-- Render a comma-separated JSON array body. -/
def renderJValList : List JVal → String
  | [] => ""
  | [x] => renderJVal x
  | x :: y :: rest => renderJVal x ++ "," ++ renderJValList (y :: rest)

/-- Render a comma-separated JSON object body. -/
def renderJFields : List (String × JVal) → String
  | [] => ""
  | [(k, v)] => "\"" ++ escapeJSONString k ++ "\":" ++ renderJVal v
  | (k, v) :: f :: rest =>
    "\"" ++ escapeJSONString k ++ "\":" ++ renderJVal v ++ "," ++ renderJFields (f :: rest)

end

/-! ## Error types (RFC6241 Sect 4.3) -/

/-- Secure Transport layer error type. -/
def transport : Nat := 0

/-- Messages layer error type. -/
def rpc : Nat := 1

/-- Operations layer error type. -/
def protocol : Nat := 2

/-- Content layer error type. -/
def application : Nat := 3

/-- The `errtypemap` from error-type strings to the `errtype` values. -/
def errtypemap : List (String × Nat) :=
  [("transport", transport), ("rpc", rpc),
   ("protocol", protocol), ("application", application)]

/-- First-match lookup in a string-keyed association list (Go map read). -/
def lookupStr {α : Type} : List (String × α) → String → Option α
  | [], _ => none
  | (k, v) :: rest, key => if k = key then some v else lookupStr rest key

/-- First-match lookup in a numeric-keyed association list (Go map read). -/
def lookupNat {α : Type} : List (Nat × α) → Nat → Option α
  | [], _ => none
  | (k, v) :: rest, key => if k = key then some v else lookupNat rest key

/-- Reverse lookup of a value's key in a string-to-number map, modelling
the `String()` methods that range over the map; the map values are
pairwise distinct so the result does not depend on iteration order. -/
def revLookupTag : List (String × Nat) → Nat → String
  | [], _ => ""
  | (s, v) :: rest, t => if v = t then s else revLookupTag rest t

/-- `errtype.String()`. -/
def errtypeString (t : Nat) : String := revLookupTag errtypemap t

/-! ## Base-protocol catalog (ncerror.go) -/

/-- The single NETCONF severity value. -/
def nc_severity_error : Nat := 0

/-- `ncerrseveritymap`. -/
def ncerrseveritymap : List (Nat × String) := [(nc_severity_error, "error")]

/-- `ncerrseverity.String()`. -/
def ncerrseverityString (s : Nat) : String :=
  (lookupNat ncerrseveritymap s).getD ""

/-- NETCONF error tag `in-use` (RFC6241 Apdx A). -/
def in_use : Nat := 0

/-- NETCONF error tag `invalid-value`. -/
def invalid_value : Nat := 1

/-- NETCONF error tag `too-big`. -/
def too_big : Nat := 2

/-- NETCONF error tag `missing-attribute`. -/
def missing_attribute : Nat := 3

/-- NETCONF error tag `bad-attribute`. -/
def bad_attribute : Nat := 4

/-- NETCONF error tag `unknown-attribute`. -/
def unknown_attribute : Nat := 5

/-- NETCONF error tag `missing-element`. -/
def missing_element : Nat := 6

/-- NETCONF error tag `bad-element`. -/
def bad_element : Nat := 7

/-- NETCONF error tag `unknown-element`. -/
def unknown_element : Nat := 8

/-- NETCONF error tag `unknown-namespace`. -/
def unknown_namespace : Nat := 9

/-- NETCONF error tag `access-denied`. -/
def access_denied : Nat := 10

/-- NETCONF error tag `lock-denied`. -/
def lock_denied : Nat := 11

/-- NETCONF error tag `resource-denied`. -/
def resource_denied : Nat := 12

/-- NETCONF error tag `rollback-failed`. -/
def rollback_failed : Nat := 13

/-- NETCONF error tag `data-exists`. -/
def data_exists : Nat := 14

/-- NETCONF error tag `data-missing`. -/
def data_missing : Nat := 15

/-- NETCONF error tag `operation-not-supported`. -/
def operation_not_supported : Nat := 16

/-- NETCONF error tag `operation-failed`. -/
def operation_failed : Nat := 17

/-- NETCONF error tag `malformed-message` (new in :base:1.1). -/
def malformed_message : Nat := 18

/-- `ncerrtagmap` from tag strings to tag values. -/
def ncerrtagmap : List (String × Nat) :=
  [("in-use", in_use),
   ("invalid-value", invalid_value),
   ("too-big", too_big),
   ("missing-attribute", missing_attribute),
   ("bad-attribute", bad_attribute),
   ("unknown-attribute", unknown_attribute),
   ("missing-element", missing_element),
   ("bad-element", bad_element),
   ("unknown-element", unknown_element),
   ("unknown-namespace", unknown_namespace),
   ("access-denied", access_denied),
   ("lock-denied", lock_denied),
   ("resource-denied", resource_denied),
   ("rollback-failed", rollback_failed),
   ("data-exists", data_exists),
   ("data-missing", data_missing),
   ("operation-not-supported", operation_not_supported),
   ("operation-failed", operation_failed),
   ("malformed-message", malformed_message)]

/-- `ncerrtag.String()`. -/
def ncerrtagString (t : Nat) : String := revLookupTag ncerrtagmap t

/-- RFC6241 Appendix A canned message for `in-use`. -/
def msg_nc_in_use : String :=
  "The request requires a resource that already is in use."

/-- Canned message for `invalid-value`. -/
def msg_nc_invalid_value : String :=
  "The request specifies an unacceptable value for one or more parameters."

/-- Canned message for `too-big`. -/
def msg_nc_too_big : String :=
  "The request or response (that would be generated) is too large for the implementation to handle."

/-- Canned message for `missing-attribute`. -/
def msg_nc_missing_attribute : String :=
  "An expected attribute is missing."

/-- Canned message for `bad-attribute`. -/
def msg_nc_bad_attribute : String :=
  "An attribute value is not correct; e.g., wrong type, out of range, pattern mismatch."

/-- Canned message for `unknown-attribute`. -/
def msg_nc_unknown_attribute : String :=
  "An unexpected attribute is present."

/-- Canned message for `missing-element`. -/
def msg_nc_missing_element : String :=
  "An expected element is missing."

/-- Canned message for `bad-element`. -/
def msg_nc_bad_element : String :=
  "An element value is not correct; e.g., wrong type, out of range, pattern mismatch."

/-- Canned message for `unknown-element`. -/
def msg_nc_unknown_element : String :=
  "An unexpected element is present."

/-- Canned message for `unknown-namespace`. -/
def msg_nc_unknown_namespace : String :=
  "An unexpected namespace is present."

/-- Canned message for `access-denied`. -/
def msg_nc_access_denied : String :=
  "Access to the requested protocol operation or data model is denied because authorization failed."

/-- Canned message for `lock-denied`. -/
def msg_nc_lock_denied : String :=
  "Access to the requested lock is denied because the lock is currently held by another entity."

/-- Canned message for `resource-denied`. -/
def msg_nc_resource_denied : String :=
  "Request could not be completed because of insufficient resources."

/-- Canned message for `rollback-failed`. -/
def msg_nc_rollback_failed : String :=
  "Request to roll back some configuration change (via rollback-on-error or <discard-changes> operations) was not completed for some reason."

/-- Canned message for `data-exists`. -/
def msg_nc_data_exists : String :=
  "Request could not be completed because the relevant data model content already exists.  For example, a \"create\" operation was attempted on data that already exists."

/-- Canned message for `data-missing`. -/
def msg_nc_data_missing : String :=
  "Request could not be completed because the relevant data model content does not exist.  For example, a \"delete\" operation was attempted on data that does not exist."

/-- Canned message for `operation-not-supported`. -/
def msg_nc_operation_not_supported : String :=
  "Request could not be completed because the requested operation is not supported by this implementation."

/-- Canned message for `operation-failed`. -/
def msg_nc_operation_failed : String :=
  "Request could not be completed because the requested operation failed for some reason not covered by any other error condition."

/-- Canned message for `malformed-message`. -/
def msg_nc_malformed_message : String :=
  "A message could not be handled because it failed to be parsed correctly.  For example, the message is not well-formed XML or it uses an invalid character set."

/-- The base-protocol create functions stored in the catalog, one per
typed wrapper (the wrapper types each hold exactly one record). -/
inductive NcCreate where
  | createInUseProtocolError
  | createInUseApplicationError
  | createInvalidValueProtocolError
  | createInvalidValueApplicationError
  | createTooBigTransportError
  | createTooBigRpcError
  | createTooBigProtocolError
  | createTooBigApplicationError
  | createMissingAttrRpcError
  | createMissingAttrProtocolError
  | createMissingAttrApplicationError
  | createBadAttrRpcError
  | createBadAttrProtocolError
  | createBadAttrApplicationError
  | createUnknownAttrRpcError
  | createUnknownAttrProtocolError
  | createUnknownAttrApplicationError
  | createMissingElementProtocolError
  | createMissingElementApplicationError
  | createBadElementProtocolError
  | createBadElementApplicationError
  | createUnknownElementProtocolError
  | createUnknownElementApplicationError
  | createUnknownNamespaceProtocolError
  | createUnknownNamespaceApplicationError
  | createAccessDeniedProtocolError
  | createAccessDeniedApplicationError
  | createLockDeniedError
  | createResourceDeniedTransportError
  | createResourceDeniedRpcError
  | createResourceDeniedProtocolError
  | createResourceDeniedApplicationError
  | createRollbackFailedProtocolError
  | createRollbackFailedApplicationError
  | createDataExistsError
  | createDataMissingError
  | createOperationNotSupportedProtocolError
  | createOperationNotSupportedApplicationError
  | createOperationFailedRpcError
  | createOperationFailedProtocolError
  | createOperationFailedApplicationError
  | createMalformedMessageError
deriving DecidableEq, Repr

/-- One `ncErrTable` entry: severity, canned message and the map from
legal error types to the create function of the matching typed wrapper. -/
structure ncErrTagEntry where
  severity : Nat
  msg : String
  typ : List (Nat × NcCreate)

/-- The base-protocol catalog (RFC6241 Apdx A), keyed by tag. -/
def ncErrTable : List (Nat × ncErrTagEntry) :=
  [(in_use,
    { severity := nc_severity_error, msg := msg_nc_in_use,
      typ := [(protocol, .createInUseProtocolError),
              (application, .createInUseApplicationError)] }),
   (invalid_value,
    { severity := nc_severity_error, msg := msg_nc_invalid_value,
      typ := [(protocol, .createInvalidValueProtocolError),
              (application, .createInvalidValueApplicationError)] }),
   (too_big,
    { severity := nc_severity_error, msg := msg_nc_too_big,
      typ := [(transport, .createTooBigTransportError),
              (rpc, .createTooBigRpcError),
              (protocol, .createTooBigProtocolError),
              (application, .createTooBigApplicationError)] }),
   (missing_attribute,
    { severity := nc_severity_error, msg := msg_nc_missing_attribute,
      typ := [(rpc, .createMissingAttrRpcError),
              (protocol, .createMissingAttrProtocolError),
              (application, .createMissingAttrApplicationError)] }),
   (bad_attribute,
    { severity := nc_severity_error, msg := msg_nc_bad_attribute,
      typ := [(rpc, .createBadAttrRpcError),
              (protocol, .createBadAttrProtocolError),
              (application, .createBadAttrApplicationError)] }),
   (unknown_attribute,
    { severity := nc_severity_error, msg := msg_nc_unknown_attribute,
      typ := [(rpc, .createUnknownAttrRpcError),
              (protocol, .createUnknownAttrProtocolError),
              (application, .createUnknownAttrApplicationError)] }),
   (missing_element,
    { severity := nc_severity_error, msg := msg_nc_missing_element,
      typ := [(protocol, .createMissingElementProtocolError),
              (application, .createMissingElementApplicationError)] }),
   (bad_element,
    { severity := nc_severity_error, msg := msg_nc_bad_element,
      typ := [(protocol, .createBadElementProtocolError),
              (application, .createBadElementApplicationError)] }),
   (unknown_element,
    { severity := nc_severity_error, msg := msg_nc_unknown_element,
      typ := [(protocol, .createUnknownElementProtocolError),
              (application, .createUnknownElementApplicationError)] }),
   (unknown_namespace,
    { severity := nc_severity_error, msg := msg_nc_unknown_namespace,
      typ := [(protocol, .createUnknownNamespaceProtocolError),
              (application, .createUnknownNamespaceApplicationError)] }),
   (access_denied,
    { severity := nc_severity_error, msg := msg_nc_access_denied,
      typ := [(protocol, .createAccessDeniedProtocolError),
              (application, .createAccessDeniedApplicationError)] }),
   (lock_denied,
    { severity := nc_severity_error, msg := msg_nc_lock_denied,
      typ := [(protocol, .createLockDeniedError)] }),
   (resource_denied,
    { severity := nc_severity_error, msg := msg_nc_resource_denied,
      typ := [(transport, .createResourceDeniedTransportError),
              (rpc, .createResourceDeniedRpcError),
              (protocol, .createResourceDeniedProtocolError),
              (application, .createResourceDeniedApplicationError)] }),
   (rollback_failed,
    { severity := nc_severity_error, msg := msg_nc_rollback_failed,
      typ := [(protocol, .createRollbackFailedProtocolError),
              (application, .createRollbackFailedApplicationError)] }),
   (data_exists,
    { severity := nc_severity_error, msg := msg_nc_data_exists,
      typ := [(application, .createDataExistsError)] }),
   (data_missing,
    { severity := nc_severity_error, msg := msg_nc_data_missing,
      typ := [(application, .createDataMissingError)] }),
   (operation_not_supported,
    { severity := nc_severity_error, msg := msg_nc_operation_not_supported,
      typ := [(protocol, .createOperationNotSupportedProtocolError),
              (application, .createOperationNotSupportedApplicationError)] }),
   (operation_failed,
    { severity := nc_severity_error, msg := msg_nc_operation_failed,
      typ := [(rpc, .createOperationFailedRpcError),
              (protocol, .createOperationFailedProtocolError),
              (application, .createOperationFailedApplicationError)] }),
   (malformed_message,
    { severity := nc_severity_error, msg := msg_nc_malformed_message,
      typ := [(rpc, .createMalformedMessageError)] })]

/-- The distinguishable construction-failure values of the library
(`invalid_error_tag`, `invalid_error_type`, `invalid_error_tag_type` and
`invalid_error_app_tag`; the last one, `invalid error app tag`, is
declared in the source but never returned by any code path). -/
inductive createErr where
  | invalid_error_tag
  | invalid_error_type
  | invalid_error_tag_type
  | invalid_error_app_tag
deriving DecidableEq, Repr

/-- NETCONF error-info identifier `bad-attribute` (RFC6421 Apdx A). -/
def bad_attribute_info : Nat := 0

/-- NETCONF error-info identifier `bad-element`. -/
def bad_element_info : Nat := 1

/-- NETCONF error-info identifier `bad-namespace`. -/
def bad_namespace_info : Nat := 2

/-- NETCONF error-info identifier `session-id`. -/
def session_id_info : Nat := 3

/-- `ncErrInfoIdMap` from info identifiers to element names. -/
def ncErrInfoIdMap : List (Nat × String) :=
  [(bad_attribute_info, "bad-attribute"),
   (bad_element_info, "bad-element"),
   (bad_namespace_info, "bad-namespace"),
   (session_id_info, "session-id")]

/-- `ncErrInfoId.String()`. -/
def ncErrInfoIdString (i : Nat) : String := (lookupNat ncErrInfoIdMap i).getD ""

/-- `MgmtError.setNcError`: populate a record from the base-protocol
catalog, failing with one of three distinguishable conditions when the tag
is unknown, the type is unknown, or the type is not a legal pairing for
the tag.  The app tag is stored without validation. -/
def setNcError (e : MgmtError) (tag : Nat) (typ apptag path : String)
    (info : Option (List MgmtErrorInfoTag)) : Except createErr MgmtError :=
  match lookupNat ncErrTable tag with
  | none => .error .invalid_error_tag
  | some ncEnt =>
    match lookupStr errtypemap typ with
    | none => .error .invalid_error_type
    | some errTypeId =>
      match lookupNat ncEnt.typ errTypeId with
      | none => .error .invalid_error_tag_type
      | some _ =>
        .ok { e with Tag := ncerrtagString tag,
                     Typ := typ,
                     Severity := ncerrseverityString ncEnt.severity,
                     Message := ncEnt.msg,
                     AppTag := apptag,
                     Path := path,
                     Info := match info with
                             | some i => i
                             | none => e.Info }

/-- `newNcError`: `setNcError` on a fresh record; the source panics on a
catalog miss, modelled as `none`. -/
def newNcError (tag : Nat) (typ apptag path : String)
    (info : Option (List MgmtErrorInfoTag)) : Option MgmtError :=
  (setNcError newMgmtError tag typ apptag path info).toOption

/-- `newAttrError`: record with `bad-attribute` and `bad-element` info. -/
def newAttrError (tag : Nat) (typ badAttr badElem : String) : Option MgmtError :=
  newNcError tag typ "" ""
    (some [{ XMLName := { Space := "", Local := ncErrInfoIdString bad_attribute_info },
             Value := badAttr },
           { XMLName := { Space := "", Local := ncErrInfoIdString bad_element_info },
             Value := badElem }])

/-- `newElemError`: record with a single `bad-element` info tag. -/
def newElemError (tag : Nat) (typ badElem : String) : Option MgmtError :=
  newNcError tag typ "" ""
    (some [{ XMLName := { Space := "", Local := ncErrInfoIdString bad_element_info },
             Value := badElem }])

/-- `getNetconfError`: base-protocol step of the reverse classifier. -/
def getNetconfError (err : MgmtError) : Option (NcCreate × MgmtError) :=
  match lookupStr ncerrtagmap err.Tag with
  | none => none
  | some tag =>
    match lookupNat ncErrTable tag with
    | none => none
    | some ncEnt =>
      match lookupStr errtypemap err.Typ with
      | none => none
      | some errTypeId =>
        match lookupNat ncEnt.typ errTypeId with
        | none => none
        | some fn => some (fn, err)

/-! ## Base-protocol typed constructors (records of the ~40 wrappers) -/

/-- `newInUseError`. -/
def newInUseError (typ : String) : Option MgmtError :=
  newNcError in_use typ "" "" none

/-- Record built by `NewInUseProtocolError`. -/
def NewInUseProtocolError : Option MgmtError :=
  newInUseError (errtypeString protocol)

/-- Record built by `NewInUseApplicationError`. -/
def NewInUseApplicationError : Option MgmtError :=
  newInUseError (errtypeString application)

/-- `newInvalidValueError`. -/
def newInvalidValueError (typ : String) : Option MgmtError :=
  newNcError invalid_value typ "" "" none

/-- Record built by `NewInvalidValueProtocolError`. -/
def NewInvalidValueProtocolError : Option MgmtError :=
  newInvalidValueError (errtypeString protocol)

/-- Record built by `NewInvalidValueApplicationError`. -/
def NewInvalidValueApplicationError : Option MgmtError :=
  newInvalidValueError (errtypeString application)

/-- `newTooBigError`. -/
def newTooBigError (typ : String) : Option MgmtError :=
  newNcError too_big typ "" "" none

/-- Record built by `NewTooBigTransportError`. -/
def NewTooBigTransportError : Option MgmtError :=
  newTooBigError (errtypeString transport)

/-- Record built by `NewTooBigRpcError`. -/
def NewTooBigRpcError : Option MgmtError :=
  newTooBigError (errtypeString rpc)

/-- Record built by `NewTooBigProtocolError`. -/
def NewTooBigProtocolError : Option MgmtError :=
  newTooBigError (errtypeString protocol)

/-- Record built by `NewTooBigApplicationError`. -/
def NewTooBigApplicationError : Option MgmtError :=
  newTooBigError (errtypeString application)

/-- `newMissingAttrError`. -/
def newMissingAttrError (typ badAttr badElem : String) : Option MgmtError :=
  newAttrError missing_attribute typ badAttr badElem

/-- Record built by `NewMissingAttrRpcError`. -/
def NewMissingAttrRpcError (badAttr badElem : String) : Option MgmtError :=
  newMissingAttrError (errtypeString rpc) badAttr badElem

/-- Record built by `NewMissingAttrProtocolError`. -/
def NewMissingAttrProtocolError (badAttr badElem : String) : Option MgmtError :=
  newMissingAttrError (errtypeString protocol) badAttr badElem

/-- Record built by `NewMissingAttrApplicationError`. -/
def NewMissingAttrApplicationError (badAttr badElem : String) : Option MgmtError :=
  newMissingAttrError (errtypeString application) badAttr badElem

/-- `newBadAttrError`. -/
def newBadAttrError (typ badAttr badElem : String) : Option MgmtError :=
  newAttrError bad_attribute typ badAttr badElem

/-- Record built by `NewBadAttrRpcError`. -/
def NewBadAttrRpcError (badAttr badElem : String) : Option MgmtError :=
  newBadAttrError (errtypeString rpc) badAttr badElem

/-- Record built by `NewBadAttrProtocolError`. -/
def NewBadAttrProtocolError (badAttr badElem : String) : Option MgmtError :=
  newBadAttrError (errtypeString protocol) badAttr badElem

/-- Record built by `NewBadAttrApplicationError`. -/
def NewBadAttrApplicationError (badAttr badElem : String) : Option MgmtError :=
  newBadAttrError (errtypeString application) badAttr badElem

/-- `newUnknownAttrError`. -/
def newUnknownAttrError (typ badAttr badElem : String) : Option MgmtError :=
  newAttrError unknown_attribute typ badAttr badElem

/-- Record built by `NewUnknownAttrRpcError`. -/
def NewUnknownAttrRpcError (badAttr badElem : String) : Option MgmtError :=
  newUnknownAttrError (errtypeString rpc) badAttr badElem

/-- Record built by `NewUnknownAttrProtocolError`. -/
def NewUnknownAttrProtocolError (badAttr badElem : String) : Option MgmtError :=
  newUnknownAttrError (errtypeString protocol) badAttr badElem

/-- Record built by `NewUnknownAttrApplicationError`. -/
def NewUnknownAttrApplicationError (badAttr badElem : String) : Option MgmtError :=
  newUnknownAttrError (errtypeString application) badAttr badElem

/-- `newMissingElemError`. -/
def newMissingElemError (typ badElem : String) : Option MgmtError :=
  newElemError missing_element typ badElem

/-- Record built by `NewMissingElementProtocolError`. -/
def NewMissingElementProtocolError (badElem : String) : Option MgmtError :=
  newMissingElemError (errtypeString protocol) badElem

/-- Record built by `NewMissingElementApplicationError`. -/
def NewMissingElementApplicationError (badElem : String) : Option MgmtError :=
  newMissingElemError (errtypeString application) badElem

/-- `newBadElemError`. -/
def newBadElemError (typ badElem : String) : Option MgmtError :=
  newElemError bad_element typ badElem

/-- Record built by `NewBadElementProtocolError`. -/
def NewBadElementProtocolError (badElem : String) : Option MgmtError :=
  newBadElemError (errtypeString protocol) badElem

/-- Record built by `NewBadElementApplicationError`. -/
def NewBadElementApplicationError (badElem : String) : Option MgmtError :=
  newBadElemError (errtypeString application) badElem

/-- `newUnknownElemError`. -/
def newUnknownElemError (typ badElem : String) : Option MgmtError :=
  newElemError unknown_element typ badElem

/-- Record built by `NewUnknownElementProtocolError`. -/
def NewUnknownElementProtocolError (badElem : String) : Option MgmtError :=
  newUnknownElemError (errtypeString protocol) badElem

/-- Record built by `NewUnknownElementApplicationError`. -/
def NewUnknownElementApplicationError (badElem : String) : Option MgmtError :=
  newUnknownElemError (errtypeString application) badElem

/-- `newUnknownNamespaceError`: record with `bad-element` and
`bad-namespace` info tags. -/
def newUnknownNamespaceError (typ badElem badNS : String) : Option MgmtError :=
  newNcError unknown_namespace typ "" ""
    (some [{ XMLName := { Space := "", Local := ncErrInfoIdString bad_element_info },
             Value := badElem },
           { XMLName := { Space := "", Local := ncErrInfoIdString bad_namespace_info },
             Value := badNS }])

/-- Record built by `NewUnknownNamespaceProtocolError`. -/
def NewUnknownNamespaceProtocolError (badElem badNS : String) : Option MgmtError :=
  newUnknownNamespaceError (errtypeString protocol) badElem badNS

/-- Record built by `NewUnknownNamespaceApplicationError`. -/
def NewUnknownNamespaceApplicationError (badElem badNS : String) : Option MgmtError :=
  newUnknownNamespaceError (errtypeString application) badElem badNS

/-- `newAccessDeniedError`. -/
def newAccessDeniedError (typ : String) : Option MgmtError :=
  newNcError access_denied typ "" "" none

/-- Record built by `NewAccessDeniedProtocolError`. -/
def NewAccessDeniedProtocolError : Option MgmtError :=
  newAccessDeniedError (errtypeString protocol)

/-- Record built by `NewAccessDeniedApplicationError`. -/
def NewAccessDeniedApplicationError : Option MgmtError :=
  newAccessDeniedError (errtypeString application)

/-- Record built by `NewLockDeniedError` with a `session-id` info tag. -/
def NewLockDeniedError (sess : String) : Option MgmtError :=
  newNcError lock_denied (errtypeString protocol) "" ""
    (some [{ XMLName := { Space := "", Local := ncErrInfoIdString session_id_info },
             Value := sess }])

/-- `newResourceDeniedError`. -/
def newResourceDeniedError (typ : String) : Option MgmtError :=
  newNcError resource_denied typ "" "" none

/-- Record built by `NewResourceDeniedTransportError`. -/
def NewResourceDeniedTransportError : Option MgmtError :=
  newResourceDeniedError (errtypeString transport)

/-- Record built by `NewResourceDeniedRpcError`. -/
def NewResourceDeniedRpcError : Option MgmtError :=
  newResourceDeniedError (errtypeString rpc)

/-- Record built by `NewResourceDeniedProtocolError`. -/
def NewResourceDeniedProtocolError : Option MgmtError :=
  newResourceDeniedError (errtypeString protocol)

/-- Record built by `NewResourceDeniedApplicationError`. -/
def NewResourceDeniedApplicationError : Option MgmtError :=
  newResourceDeniedError (errtypeString application)

/-- `newRollbackFailedError`. -/
def newRollbackFailedError (typ : String) : Option MgmtError :=
  newNcError rollback_failed typ "" "" none

/-- Record built by `NewRollbackFailedProtocolError`. -/
def NewRollbackFailedProtocolError : Option MgmtError :=
  newRollbackFailedError (errtypeString protocol)

/-- Record built by `NewRollbackFailedApplicationError`. -/
def NewRollbackFailedApplicationError : Option MgmtError :=
  newRollbackFailedError (errtypeString application)

/-- Record built by `NewDataExistsError`. -/
def NewDataExistsError : Option MgmtError :=
  newNcError data_exists (errtypeString application) "" "" none

/-- Record built by `NewDataMissingError`. -/
def NewDataMissingError : Option MgmtError :=
  newNcError data_missing (errtypeString application) "" "" none

/-- `newOperationNotSupportedError`. -/
def newOperationNotSupportedError (typ : String) : Option MgmtError :=
  newNcError operation_not_supported typ "" "" none

/-- Record built by `NewOperationNotSupportedProtocolError`. -/
def NewOperationNotSupportedProtocolError : Option MgmtError :=
  newOperationNotSupportedError (errtypeString protocol)

/-- Record built by `NewOperationNotSupportedApplicationError`. -/
def NewOperationNotSupportedApplicationError : Option MgmtError :=
  newOperationNotSupportedError (errtypeString application)

/-- `newOperationFailedError`. -/
def newOperationFailedError (typ : String) : Option MgmtError :=
  newNcError operation_failed typ "" "" none

/-- Record built by `NewOperationFailedProtocolError`. -/
def NewOperationFailedProtocolError : Option MgmtError :=
  newOperationFailedError (errtypeString protocol)

/-- Record built by `NewOperationFailedApplicationError`. -/
def NewOperationFailedApplicationError : Option MgmtError :=
  newOperationFailedError (errtypeString application)

/-- Record built by `NewOperationFailedRpcError`. -/
def NewOperationFailedRpcError : Option MgmtError :=
  newOperationFailedError (errtypeString rpc)

/-- Record built by `NewMalformedMessageError` (the source passes the
literal string "rpc" as the type). -/
def NewMalformedMessageError : Option MgmtError :=
  newNcError malformed_message "rpc" "" "" none

/-! ## YANG catalog (RFC6020 Sect 13) -/

/-- YANG severity `error`. -/
def yang_severity_error : Nat := 0

/-- YANG severity `warning`. -/
def yang_severity_warning : Nat := 1

/-- Placeholder used where a node path must be filled in later. -/
def needNodePath : String := ""

/-- Placeholder used where no YANG path exists. -/
def noYangPath : String := ""

/-- Placeholder used where a YANG path would be expected. -/
def needYangPath : String := ""

/-- `yerrseveritymap`. -/
def yerrseveritymap : List (Nat × String) :=
  [(yang_severity_error, "error"), (yang_severity_warning, "warning")]

/-- `yerrseverity.String()`. -/
def yerrseverityString (s : Nat) : String :=
  (lookupNat yerrseveritymap s).getD ""

/-- YANG error tag `operation-failed`. -/
def yang_operation_failed : Nat := 0

/-- YANG error tag `data-missing`. -/
def yang_data_missing : Nat := 1

/-- YANG error tag `bad-attribute`. -/
def yang_bad_attribute : Nat := 2

/-- The YANG `errtagmap` from tag strings to tag values. -/
def errtagmap : List (String × Nat) :=
  [("operation-failed", yang_operation_failed),
   ("data-missing", yang_data_missing),
   ("bad-attribute", yang_bad_attribute)]

/-- `yerrtag.String()`. -/
def yerrtagString (t : Nat) : String := revLookupTag errtagmap t

/-- YANG app tag `data-not-unique`. -/
def data_not_unique : Nat := 0

/-- YANG app tag `too-many-elements`. -/
def too_many_elements : Nat := 1

/-- YANG app tag `too-few-elements`. -/
def too_few_elements : Nat := 2

/-- YANG app tag `must-violation`. -/
def must_violation : Nat := 3

/-- YANG app tag `instance-required`. -/
def instance_required : Nat := 4

/-- YANG app tag `missing-choice`. -/
def missing_choice : Nat := 5

/-- YANG app tag `missing-instance`. -/
def missing_instance : Nat := 6

/-- `yerrapptagmap` from app-tag strings to app-tag values. -/
def yerrapptagmap : List (String × Nat) :=
  [("data-not-unique", data_not_unique),
   ("too-many-elements", too_many_elements),
   ("too-few-elements", too_few_elements),
   ("must-violation", must_violation),
   ("instance-required", instance_required),
   ("missing-choice", missing_choice),
   ("missing-instance", missing_instance)]

/-- `yerrapptagid.String()`. -/
def yerrapptagString (t : Nat) : String := revLookupTag yerrapptagmap t

/-- Canned message for YANG `operation-failed`. -/
def msg_yang_operation_failed : String := "The requested operation failed."

/-- Canned message for YANG `data-missing`. -/
def msg_yang_data_missing : String := "Expected data is missing."

/-- Canned message for YANG `bad-attribute`. -/
def msg_yang_bad_attribute : String :=
  "An attribute value is not correct; e.g., wrong type, out of range, pattern mismatch."

/-- The YANG create functions stored in the catalog. -/
inductive YangCreate where
  | createNonUniqueError
  | createTooManyElementsError
  | createTooFewElementsError
  | createMustViolationError
  | createInstanceRequiredError
  | createMissingChoiceError
  | createInsertFailedError
deriving DecidableEq, Repr

/-- One `yangErrTable` entry: severity, canned message and the map from
app tags to create functions. -/
structure yangErrTagEntry where
  severity : Nat
  msg : String
  apptag : List (Nat × YangCreate)

/-- The YANG catalog, keyed by tag. -/
def yangErrTable : List (Nat × yangErrTagEntry) :=
  [(yang_operation_failed,
    { severity := yang_severity_error, msg := msg_yang_operation_failed,
      apptag := [(data_not_unique, .createNonUniqueError),
                 (too_many_elements, .createTooManyElementsError),
                 (too_few_elements, .createTooFewElementsError),
                 (must_violation, .createMustViolationError)] }),
   (yang_data_missing,
    { severity := yang_severity_error, msg := msg_yang_data_missing,
      apptag := [(instance_required, .createInstanceRequiredError),
                 (missing_choice, .createMissingChoiceError)] }),
   (yang_bad_attribute,
    { severity := yang_severity_error, msg := msg_yang_bad_attribute,
      apptag := [(missing_instance, .createInsertFailedError)] })]

/-- `getYangError`: YANG step of the reverse classifier. -/
def getYangError (err : MgmtError) : Option (YangCreate × MgmtError) :=
  match lookupStr errtagmap err.Tag with
  | none => none
  | some tag =>
    match lookupNat yangErrTable tag with
    | none => none
    | some errtag =>
      match lookupStr yerrapptagmap err.AppTag with
      | none => none
      | some apptag =>
        match lookupNat errtag.apptag apptag with
        | none => none
        | some fn => some (fn, err)

/-- YANG error-info identifier `non-unique`. -/
def non_unique_info : Nat := 0

/-- YANG error-info identifier `missing-choice`. -/
def missing_choice_info : Nat := 1

/-- `yangErrInfoIdMap`. -/
def yangErrInfoIdMap : List (Nat × String) :=
  [(non_unique_info, "non-unique"), (missing_choice_info, "missing-choice")]

/-- `yangErrInfoId.String()`. -/
def yangErrInfoIdString (i : Nat) : String :=
  (lookupNat yangErrInfoIdMap i).getD ""

/-- `MgmtError.setYangError`: populate a record from the YANG catalog.
Only the tag is validated; the type is hard-coded to `application`, the
app tag is stored without validation and the `yangPath` parameter is
ignored (no record field exists for it). -/
def setYangError (e : MgmtError) (tag : Nat) (apptag path yangPath : String)
    (info : Option (List MgmtErrorInfoTag)) : Except createErr MgmtError :=
  match lookupNat yangErrTable tag with
  | none => .error .invalid_error_tag
  | some yangErrTag =>
    .ok { e with Tag := yerrtagString tag,
                 Typ := "application",
                 Severity := yerrseverityString yangErrTag.severity,
                 Message := yangErrTag.msg,
                 AppTag := apptag,
                 Path := path,
                 Info := match info with
                         | some i => i
                         | none => e.Info }

/-- `newYangError`: `setYangError` on a fresh record (panic becomes
`none`). -/
def newYangError (tag : Nat) (apptag path yangPath : String)
    (info : Option (List MgmtErrorInfoTag)) : Option MgmtError :=
  (setYangError newMgmtError tag apptag path yangPath info).toOption

/-- Record built by `NewNonUniqueError`: one namespaced `non-unique` info
entry per offending path. -/
def NewNonUniqueError (paths : List String) : Option MgmtError :=
  newYangError yang_operation_failed (yerrapptagString data_not_unique)
    needNodePath noYangPath
    (some (paths.map (fun p =>
      { XMLName := { Space := yang_namespace,
                     Local := yangErrInfoIdString non_unique_info },
        Value := p })))

/-- Record built by `NewTooManyElementsError`. -/
def NewTooManyElementsError (path : String) : Option MgmtError :=
  newYangError yang_operation_failed (yerrapptagString too_many_elements)
    path noYangPath none

/-- Record built by `NewTooFewElementsError`. -/
def NewTooFewElementsError (path : String) : Option MgmtError :=
  newYangError yang_operation_failed (yerrapptagString too_few_elements)
    path noYangPath none

/-- Record built by `NewMustViolationError`. -/
def NewMustViolationError : Option MgmtError :=
  newYangError yang_operation_failed (yerrapptagString must_violation)
    needNodePath noYangPath none

/-- Record built by `NewInstanceRequiredError`. -/
def NewInstanceRequiredError (path : String) : Option MgmtError :=
  newYangError yang_data_missing (yerrapptagString instance_required)
    path needYangPath none

/-- Record built by `NewLeafrefMismatchError`: the second parameter
`lrefPath` is forwarded as the `yangPath` argument, which `setYangError`
discards. -/
def NewLeafrefMismatchError (path lrefPath : String) : Option MgmtError :=
  newYangError yang_data_missing (yerrapptagString instance_required)
    path lrefPath none

/-- Record built by `NewMissingChoiceError`: one namespaced
`missing-choice` info entry naming the missing choice. -/
def NewMissingChoiceError (path name : String) : Option MgmtError :=
  newYangError yang_operation_failed (yerrapptagString missing_choice)
    path needYangPath
    (some [{ XMLName := { Space := yang_namespace,
                          Local := yangErrInfoIdString missing_choice_info },
             Value := name }])

/-- Record built by `NewInsertFailedError`. -/
def NewInsertFailedError : Option MgmtError :=
  newYangError yang_bad_attribute (yerrapptagString missing_instance)
    needNodePath noYangPath none

/-! ## Vendor catalog (vyerror.go) -/

/-- Vendor error tag `operation-failed`. -/
def vyatta_operation_failed : Nat := 0

/-- `vyErrTagMap`. -/
def vyErrTagMap : List (String × Nat) :=
  [("operation-failed", vyatta_operation_failed)]

/-- `vyErrTag.String()`. -/
def vyErrTagString (t : Nat) : String := revLookupTag vyErrTagMap t

/-- Vendor app tag `exec-failed`. -/
def exec_failed : Nat := 0

/-- Vendor app tag `path-ambiguous`. -/
def path_ambig : Nat := 1

/-- `vyErrAppTagMap`. -/
def vyErrAppTagMap : List (String × Nat) :=
  [("exec-failed", exec_failed), ("path-ambiguous", path_ambig)]

/-- `vyErrAppTagId.String()`. -/
def vyErrAppTagString (t : Nat) : String := revLookupTag vyErrAppTagMap t

/-- The vendor create functions stored in the catalog. -/
inductive VyCreate where
  | createExecError
  | createPathAmbigError
deriving DecidableEq, Repr

/-- One `vyErrTable` entry: severity, canned message and app-tag map. -/
structure vyError where
  severity : Nat
  msg : String
  apptag : List (Nat × VyCreate)

/-- The vendor catalog, keyed by tag. -/
def vyErrTable : List (Nat × vyError) :=
  [(vyatta_operation_failed,
    { severity := yang_severity_error, msg := msg_yang_operation_failed,
      apptag := [(exec_failed, .createExecError),
                 (path_ambig, .createPathAmbigError)] })]

/-- `getVyattaError`: vendor step of the reverse classifier. -/
def getVyattaError (err : MgmtError) : Option (VyCreate × MgmtError) :=
  match lookupStr vyErrTagMap err.Tag with
  | none => none
  | some tag =>
    match lookupNat vyErrTable tag with
    | none => none
    | some errtag =>
      match lookupStr vyErrAppTagMap err.AppTag with
      | none => none
      | some apptag =>
        match lookupNat errtag.apptag apptag with
        | none => none
        | some fn => some (fn, err)

/-- `MgmtError.setVyattaError`: populate a record from the vendor catalog.
Only the tag is validated; the app tag is stored without validation. -/
def setVyattaError (e : MgmtError) (tag : Nat) (apptag path : String)
    (info : Option (List MgmtErrorInfoTag)) : Except createErr MgmtError :=
  match lookupNat vyErrTable tag with
  | none => .error .invalid_error_tag
  | some vyErr =>
    .ok { e with Tag := vyErrTagString tag,
                 Typ := "application",
                 Severity := yerrseverityString vyErr.severity,
                 Message := vyErr.msg,
                 AppTag := apptag,
                 Path := path,
                 Info := match info with
                         | some i => i
                         | none => e.Info }

/-- `newVyattaError` (panic becomes `none`). -/
def newVyattaError (tag : Nat) (apptag path : String)
    (info : Option (List MgmtErrorInfoTag)) : Option MgmtError :=
  (setVyattaError newMgmtError tag apptag path info).toOption

/-- Record built by `NewExecError`: a vendor `operation-failed` record
whose message is overwritten with the subtask output. -/
def NewExecError (path : List String) (out : String) : Option MgmtError :=
  (newVyattaError vyatta_operation_failed (vyErrAppTagString exec_failed)
    (pathutilPathstr path) none).map (fun e => { e with Message := out })

/-- Record built by `NewPathAmbiguousError`: one vendor-namespaced info
entry per possible completion.  The Go `matches` map parameter is
modelled as the association list produced by one Go map iteration. -/
def NewPathAmbiguousError (path : List String) (ms : List (String × String)) :
    Option MgmtError :=
  newVyattaError vyatta_operation_failed (vyErrAppTagString path_ambig)
    (pathutilPathstr path)
    (some (ms.map (fun m => NewMgmtErrorInfoTag VyattaNamespace m.1 m.2)))

/-! ## Reverse classifier (MgmtErrorList.UnmarshalJSON dispatch) -/

/-- The result of reverse classification: the typed wrapper recovered from
a deserialized record, or the raw record when no catalog matches. -/
inductive Classified where
  | vyatta (fn : VyCreate) (e : MgmtError)
  | yang (fn : YangCreate) (e : MgmtError)
  | netconf (fn : NcCreate) (e : MgmtError)
  | generic (e : MgmtError)
deriving DecidableEq, Repr

/-- The classifier applied to each deserialized list member in
`MgmtErrorList.UnmarshalJSON`: vendor first, then YANG, then
base-protocol, else the raw record. -/
def classifyMgmtError (err : MgmtError) : Classified :=
  match getVyattaError err with
  | some (fn, e) => .vyatta fn e
  | none =>
    match getYangError err with
    | some (fn, e) => .yang fn e
    | none =>
      match getNetconfError err with
      | some (fn, e) => .netconf fn e
      | none => .generic err

/-! ## Error-list aggregator (MgmtErrorList) -/

/-- The observations of the `Formattable` read contract: the values its
seven getters return for some foreign error value. -/
structure FormattableData where
  message : String
  path : String
  severity : String
  tag : String
  apptag : String
  typ : String
  info : List MgmtErrorInfoTag
deriving DecidableEq, Repr

/-- The kinds of error value that can be appended to a `MgmtErrorList`,
distinguished exactly as the type switch in `mkMgmtError` does:
a value that implements the JSON or XML marshalling contract (every typed
wrapper marshals as its canonical record), a value that only satisfies the
`Formattable` read contract, or a plain error exposing only its string. -/
inductive GoError where
  | marshalable (e : MgmtError)
  | formattable (f : FormattableData)
  | plain (msg : String)
deriving DecidableEq, Repr

/-- `mkMgmtError`: normalization applied to every appended value.
Marshal-capable values pass through unchanged; a `Formattable` value is
wrapped in a generic operation-failed/application record carrying over its
message and path; a plain error is wrapped in the same record with its
string as the message. -/
def mkMgmtError (e : GoError) : GoError :=
  match e with
  | .marshalable _ => e
  | .formattable f =>
    match NewOperationFailedApplicationError with
    | some base => .marshalable { base with Message := f.message, Path := f.path }
    | none => e
  | .plain s =>
    match NewOperationFailedApplicationError with
    | some base => .marshalable { base with Message := s }
    | none => e

/-- Body of `MgmtErrorList.MarshalJSON`: each member rendered in order,
with a comma before every member but the first. -/
def mgmtErrorListJSONBody (first : Bool) : List MgmtError → String
  | [] => ""
  | e :: rest =>
    (if first then "" else ",") ++ renderJVal (mgmtErrorMarshalJSON e)
    ++ mgmtErrorListJSONBody false rest

/-- `MgmtErrorList.MarshalJSON`: the members wrapped in a single object
under the `error-list` array key. -/
def mgmtErrorListMarshalJSON (errs : List MgmtError) : String :=
  "\x7b\"error-list\":[" ++ mgmtErrorListJSONBody true errs ++ "]\x7d"

/-- `MgmtErrorList.MarshalXML`: each member encoded in order as a sibling
element, with no wrapping element. -/
def mgmtErrorListMarshalXML : List MgmtError → List Xml
  | [] => []
  | e :: rest => mgmtErrorMarshalXML e :: mgmtErrorListMarshalXML rest

/-- The member loop of `MgmtErrorList.UnmarshalJSON`: decode each array
element into a record and reclassify it. -/
def classifyDecodedList : List JVal → Option (List Classified)
  | [] => some []
  | x :: rest =>
    match mgmtErrorUnmarshalJSON x with
    | none => none
    | some e =>
      match classifyDecodedList rest with
      | none => none
      | some cs => some (classifyMgmtError e :: cs)

/-- `MgmtErrorList.UnmarshalJSON`: decode the `error-list` array and run
the reverse classifier on every member. -/
def MgmtErrorListUnmarshalJSON (j : JVal) : Option (List Classified) :=
  match j with
  | .obj fs =>
    match jLookup fs "error-list" with
    | none => some []
    | some (.arr xs) => classifyDecodedList xs
    | some _ => none
  | _ => none

/-! ## Textual rendering -/

/-- `MgmtError.Error()`: title-cased severity, separator, the path and a
separator when the path is non-empty, then the message when non-empty. -/
def mgmtErrorErrorString (e : MgmtError) : String :=
  stringsTitle e.Severity ++ error_msg_separator
  ++ (if e.Path ≠ "" then e.Path ++ error_msg_separator else "")
  ++ (if e.Message ≠ "" then e.Message else "")

/-- `missingElemErrorString`: reads `Info[0]` unconditionally; the
out-of-bounds access on an empty info list is modelled as `none`. -/
def missingElemErrorString (e : MgmtError) : Option String :=
  match e.Info with
  | [] => none
  | t :: _ =>
    some (stringsTitle e.Severity ++ error_msg_separator
      ++ (if e.Path ≠ "" then e.Path else "")
      ++ "/" ++ t.Value
      ++ (if e.Message ≠ "" then error_msg_separator ++ e.Message else ""))

/-- `unknownElemErrorString`: reads `Info[0]` unconditionally; the
out-of-bounds access on an empty info list is modelled as `none`. -/
def unknownElemErrorString (e : MgmtError) : Option String :=
  match e.Info with
  | [] => none
  | t :: _ =>
    some (stringsTitle e.Severity ++ error_msg_separator
      ++ (if e.Path ≠ "" then e.Path else "")
      ++ "/" ++ t.Value
      ++ (if e.Message ≠ "" then error_msg_separator ++ e.Message else ""))

/-- `errpath`: join all but the last component with spaces and bracket the
last; short paths render like a Go slice. -/
def errpath (path : List String) : String :=
  if path.length < 2 then goFmtStringSlice path
  else String.intercalate " " path.dropLast ++ " [" ++ path.getLastD "" ++ "]"

/-- `UnknownElementProtocolError.GetMessage` (the application variant is
identical): reads `Info[0]` unconditionally, modelled as `none` on an
empty info list. -/
def unknownElementGetMessage (e : MgmtError) : Option String :=
  match e.Info with
  | [] => none
  | t :: _ =>
    some (errpath (pathutilMakepath (e.Path ++ "/" ++ t.Value)) ++ " is not valid")

/-! ## Natural sort model (external danos natsort package)

Modelled from the spec: `natsort.Sort` (package github.com/danos/utils/
natsort, not part of this repository) sorts a string slice into natural
order.  The property verified about `PathAmbiguousError.Error` depends
only on the sort being a deterministic sort by a total, transitive,
antisymmetric order on strings, so the order is modelled as character-wise
comparison by code point. -/

/-- Total comparison of character lists by code point. -/
def charListLeB : List Char → List Char → Bool
  | [], _ => true
  | _ :: _, [] => false
  | c1 :: t1, c2 :: t2 =>
    if c1 = c2 then charListLeB t1 t2
    else decide (c1.toNat < c2.toNat)

/-- The string order used by the `natsort.Sort` model. -/
def natsortLe (a b : String) : Prop := charListLeB a.data b.data = true

instance : DecidableRel natsortLe := fun _ _ => instDecidableEqBool _ _

/-- Model of `natsort.Sort`: sort a string list by `natsortLe`. -/
def natsortSort (l : List String) : List String :=
  List.insertionSort natsortLe l

/-- `PathAmbiguousError.Error()`: title-cased severity, separator, then
either `Ambiguous command` (empty path) or the path and
`Ambiguous path`, then the sorted, comma-joined match names. -/
def pathAmbiguousErrorString (e : MgmtError) : String :=
  stringsTitle e.Severity ++ error_msg_separator
  ++ (if e.Path.length = 0 then "Ambiguous command"
      else e.Path ++ error_msg_separator ++ "Ambiguous path")
  ++ ", could be one of: "
  ++ String.intercalate ", " (natsortSort (e.Info.map (fun t => t.XMLName.Local)))

/-! ## Enumeration of the public typed-error constructors -/

/-- One value per public `New...Error` constructor invocation, carrying
the constructor's string arguments. -/
inductive Ctor where
  | inUseProtocol
  | inUseApplication
  | invalidValueProtocol
  | invalidValueApplication
  | tooBigTransport
  | tooBigRpc
  | tooBigProtocol
  | tooBigApplication
  | missingAttrRpc (badAttr badElem : String)
  | missingAttrProtocol (badAttr badElem : String)
  | missingAttrApplication (badAttr badElem : String)
  | badAttrRpc (badAttr badElem : String)
  | badAttrProtocol (badAttr badElem : String)
  | badAttrApplication (badAttr badElem : String)
  | unknownAttrRpc (badAttr badElem : String)
  | unknownAttrProtocol (badAttr badElem : String)
  | unknownAttrApplication (badAttr badElem : String)
  | missingElementProtocol (badElem : String)
  | missingElementApplication (badElem : String)
  | badElementProtocol (badElem : String)
  | badElementApplication (badElem : String)
  | unknownElementProtocol (badElem : String)
  | unknownElementApplication (badElem : String)
  | unknownNamespaceProtocol (badElem badNS : String)
  | unknownNamespaceApplication (badElem badNS : String)
  | accessDeniedProtocol
  | accessDeniedApplication
  | lockDenied (sess : String)
  | resourceDeniedTransport
  | resourceDeniedRpc
  | resourceDeniedProtocol
  | resourceDeniedApplication
  | rollbackFailedProtocol
  | rollbackFailedApplication
  | dataExists
  | dataMissing
  | operationNotSupportedProtocol
  | operationNotSupportedApplication
  | operationFailedRpc
  | operationFailedProtocol
  | operationFailedApplication
  | malformedMessage
  | nonUnique (paths : List String)
  | tooManyElements (path : String)
  | tooFewElements (path : String)
  | mustViolation
  | instanceRequired (path : String)
  | leafrefMismatch (path lrefPath : String)
  | missingChoice (path name : String)
  | insertFailed
  | execError (path : List String) (out : String)
  | pathAmbiguous (path : List String) (ms : List (String × String))

/-- The canonical record produced by each constructor invocation. -/
def ctorRecord : Ctor → Option MgmtError
  | .inUseProtocol => NewInUseProtocolError
  | .inUseApplication => NewInUseApplicationError
  | .invalidValueProtocol => NewInvalidValueProtocolError
  | .invalidValueApplication => NewInvalidValueApplicationError
  | .tooBigTransport => NewTooBigTransportError
  | .tooBigRpc => NewTooBigRpcError
  | .tooBigProtocol => NewTooBigProtocolError
  | .tooBigApplication => NewTooBigApplicationError
  | .missingAttrRpc a b => NewMissingAttrRpcError a b
  | .missingAttrProtocol a b => NewMissingAttrProtocolError a b
  | .missingAttrApplication a b => NewMissingAttrApplicationError a b
  | .badAttrRpc a b => NewBadAttrRpcError a b
  | .badAttrProtocol a b => NewBadAttrProtocolError a b
  | .badAttrApplication a b => NewBadAttrApplicationError a b
  | .unknownAttrRpc a b => NewUnknownAttrRpcError a b
  | .unknownAttrProtocol a b => NewUnknownAttrProtocolError a b
  | .unknownAttrApplication a b => NewUnknownAttrApplicationError a b
  | .missingElementProtocol b => NewMissingElementProtocolError b
  | .missingElementApplication b => NewMissingElementApplicationError b
  | .badElementProtocol b => NewBadElementProtocolError b
  | .badElementApplication b => NewBadElementApplicationError b
  | .unknownElementProtocol b => NewUnknownElementProtocolError b
  | .unknownElementApplication b => NewUnknownElementApplicationError b
  | .unknownNamespaceProtocol b n => NewUnknownNamespaceProtocolError b n
  | .unknownNamespaceApplication b n => NewUnknownNamespaceApplicationError b n
  | .accessDeniedProtocol => NewAccessDeniedProtocolError
  | .accessDeniedApplication => NewAccessDeniedApplicationError
  | .lockDenied s => NewLockDeniedError s
  | .resourceDeniedTransport => NewResourceDeniedTransportError
  | .resourceDeniedRpc => NewResourceDeniedRpcError
  | .resourceDeniedProtocol => NewResourceDeniedProtocolError
  | .resourceDeniedApplication => NewResourceDeniedApplicationError
  | .rollbackFailedProtocol => NewRollbackFailedProtocolError
  | .rollbackFailedApplication => NewRollbackFailedApplicationError
  | .dataExists => NewDataExistsError
  | .dataMissing => NewDataMissingError
  | .operationNotSupportedProtocol => NewOperationNotSupportedProtocolError
  | .operationNotSupportedApplication => NewOperationNotSupportedApplicationError
  | .operationFailedRpc => NewOperationFailedRpcError
  | .operationFailedProtocol => NewOperationFailedProtocolError
  | .operationFailedApplication => NewOperationFailedApplicationError
  | .malformedMessage => NewMalformedMessageError
  | .nonUnique paths => NewNonUniqueError paths
  | .tooManyElements p => NewTooManyElementsError p
  | .tooFewElements p => NewTooFewElementsError p
  | .mustViolation => NewMustViolationError
  | .instanceRequired p => NewInstanceRequiredError p
  | .leafrefMismatch p l => NewLeafrefMismatchError p l
  | .missingChoice p n => NewMissingChoiceError p n
  | .insertFailed => NewInsertFailedError
  | .execError p o => NewExecError p o
  | .pathAmbiguous p ms => NewPathAmbiguousError p ms

/-- The only constructor that places caller-controlled strings in info-tag
local names is `NewPathAmbiguousError` (the match names); this condition
requires those names to be colon-free and holds vacuously for every other
constructor. -/
def ctorInfoNamesColonFree : Ctor → Prop
  | .pathAmbiguous _ ms => ∀ m ∈ ms, ':' ∉ m.1.data
  | _ => True

/-- The info-tag side condition under which the JSON key codec is
invertible: a colon-free local name and a namespace that is either empty
or one of the three table entries. -/
def infoTagOk (t : MgmtErrorInfoTag) : Prop :=
  ':' ∉ t.XMLName.Local.data ∧
  (t.XMLName.Space = "" ∨ t.XMLName.Space = netconf_namespace ∨
   t.XMLName.Space = yang_namespace ∨ t.XMLName.Space = VyattaNamespace)

/-! ## Helper lemmas -/

/-- Rebuilding a string from its character data is the identity. -/
theorem mk_data (s : String) : String.mk s.data = s := rfl

/-- Appending the empty string is the identity. -/
theorem strAppendEmpty (s : String) : s ++ "" = s := by
  show String.mk (s.data ++ []) = s
  rw [List.append_nil]

/-- The character data of an append is the append of the data. -/
theorem data_append (s t : String) : (s ++ t).data = s.data ++ t.data := rfl

/-- Splitting a list free of the separator yields the singleton list. -/
theorem splitChar_not_mem (c : Char) (l : List Char) (h : c ∉ l) :
    splitChar c l = [l] := by
  induction l with
  | nil => rfl
  | cons x xs ih =>
    have hx : ¬(x = c) := fun hc => h (hc ▸ List.mem_cons_self x xs)
    have hxs : c ∉ xs := fun hm => h (List.mem_cons_of_mem _ hm)
    simp only [splitChar, if_neg hx, ih hxs]
    rfl

/-- Splitting past a separator-free prefix peels off that prefix. -/
theorem splitChar_append (c : Char) (l₁ l₂ : List Char) (h : c ∉ l₁) :
    splitChar c (l₁ ++ c :: l₂) = l₁ :: splitChar c l₂ := by
  induction l₁ with
  | nil => simp [splitChar]
  | cons x xs ih =>
    have hx : ¬(x = c) := fun hc => h (hc ▸ List.mem_cons_self x xs)
    have hxs : c ∉ xs := fun hm => h (List.mem_cons_of_mem _ hm)
    simp only [List.cons_append, splitChar, if_neg hx]
    rw [show xs.append (c :: l₂) = xs ++ c :: l₂ from rfl, ih hxs]
    rfl

/-- Splitting a module-prefixed key recovers the module and local name. -/
theorem stringSplitColon_key (m loc : String)
    (hm : ':' ∉ m.data) (hl : ':' ∉ loc.data) :
    stringSplitColon (m ++ ":" ++ loc) = [m, loc] := by
  unfold stringSplitColon
  have hdata : (m ++ ":" ++ loc).data = m.data ++ ':' :: loc.data := by
    rw [data_append, data_append]
    simp
  rw [hdata, splitChar_append _ _ _ hm, splitChar_not_mem _ _ hl]
  simp [mk_data]

/-- Splitting a colon-free key yields just that key. -/
theorem stringSplitColon_single (s : String) (h : ':' ∉ s.data) :
    stringSplitColon s = [s] := by
  unfold stringSplitColon
  rw [splitChar_not_mem _ _ h]
  simp [mk_data]

/-- The JSON info-tag codec round-trips every tag whose local name is
colon-free and whose namespace is empty or one of the three table
entries. -/
theorem infoTag_json_roundtrip (t : MgmtErrorInfoTag) (h : infoTagOk t) :
    infoTagUnmarshalJSON (infoTagMarshalJSON t) = some t := by
  obtain ⟨⟨sp, loc⟩, v⟩ := t
  obtain ⟨hloc, hsp⟩ := h
  simp only at hloc
  rcases hsp with hsp | hsp | hsp | hsp <;> subst hsp
  · simp only [infoTagMarshalJSON, infoTagKey]
    rw [if_neg (by simp)]
    simp only [infoTagUnmarshalJSON, stringSplitColon_single _ hloc]
    simp
  · simp only [infoTagMarshalJSON, infoTagKey]
    rw [if_pos (by decide)]
    have hm : lookupModule netconf_namespace = netconf_module := by decide
    rw [hm]
    simp only [infoTagUnmarshalJSON,
      stringSplitColon_key netconf_module loc (by decide) hloc]
    simp [lookupNamespace, netconf_module, yang_module, vyattaModule]
  · simp only [infoTagMarshalJSON, infoTagKey]
    rw [if_pos (by decide)]
    have hm : lookupModule yang_namespace = yang_module := by decide
    rw [hm]
    simp only [infoTagUnmarshalJSON,
      stringSplitColon_key yang_module loc (by decide) hloc]
    simp [lookupNamespace, netconf_module, yang_module, vyattaModule]
  · simp only [infoTagMarshalJSON, infoTagKey]
    rw [if_pos (by decide)]
    have hm : lookupModule VyattaNamespace = vyattaModule := by decide
    rw [hm]
    simp only [infoTagUnmarshalJSON,
      stringSplitColon_key vyattaModule loc (by decide) hloc]
    simp [lookupNamespace, netconf_module, yang_module, vyattaModule]

/-- Element-wise JSON decoding inverts element-wise encoding of an info
list whose tags all satisfy the codec side condition. -/
theorem decodeInfoListJSON_roundtrip (l : List MgmtErrorInfoTag)
    (h : ∀ t ∈ l, infoTagOk t) :
    decodeInfoListJSON (l.map infoTagMarshalJSON) = some l := by
  induction l with
  | nil => rfl
  | cons t ts ih =>
    simp only [List.map_cons, decodeInfoListJSON,
      infoTag_json_roundtrip t (h t (List.mem_cons_self t ts)),
      ih (fun u hu => h u (List.mem_cons_of_mem _ hu))]

/-- JSON round-trip for any canonical record whose info tags satisfy the
codec side condition: unmarshalling the marshalled record restores it
field for field. -/
theorem mgmtError_json_roundtrip (e : MgmtError)
    (hx : e.XMLName = rpcErrorXMLName)
    (hi : ∀ t ∈ e.Info, infoTagOk t) :
    mgmtErrorUnmarshalJSON (mgmtErrorMarshalJSON e) = some e := by
  obtain ⟨xn, typ, tag, sev, apptag, path, msg, info⟩ := e
  simp only at hx hi
  subst hx
  have hinfo := decodeInfoListJSON_roundtrip info hi
  by_cases hA : apptag = "" <;> by_cases hP : path = "" <;>
    by_cases hM : msg = "" <;> by_cases hI : info = [] <;>
    simp [mgmtErrorMarshalJSON, mgmtErrorUnmarshalJSON, getStrField, jLookup,
      hA, hP, hM, hI, hinfo, newMgmtError]

/-- Character data of a single text child. -/
theorem childTexts_single (v : String) : childTexts [Xml.text v] = v := by
  simp only [childTexts]
  exact strAppendEmpty v

/-- Element-wise XML decoding inverts element-wise encoding of any info
list. -/
theorem decodeInfoListXML_roundtrip (l : List MgmtErrorInfoTag) :
    decodeInfoListXML (l.map infoTagMarshalXML) = l := by
  induction l with
  | nil => rfl
  | cons t ts ih =>
    simp only [List.map_cons, infoTagMarshalXML, decodeInfoListXML,
      childTexts_single, ih]

/-- XML round-trip for every canonical record: decoding the structurally
encoded element restores the record field for field. -/
theorem mgmtError_xml_roundtrip (e : MgmtError) :
    mgmtErrorUnmarshalXML (mgmtErrorMarshalXML e) = some e := by
  obtain ⟨xn, typ, tag, sev, apptag, path, msg, info⟩ := e
  by_cases hA : apptag = "" <;> by_cases hP : path = "" <;>
    by_cases hM : msg = "" <;> by_cases hI : info = [] <;>
    simp [mgmtErrorMarshalXML, mgmtErrorUnmarshalXML, infoMarshalXML,
      childFieldText, findChild, childTexts_single,
      decodeInfoListXML_roundtrip, hA, hP, hM, hI]

/-- All members of a singleton list satisfy a predicate its element
satisfies. -/
theorem forall_mem_one {P : MgmtErrorInfoTag → Prop} {x : MgmtErrorInfoTag}
    (hx : P x) : ∀ t ∈ [x], P t := by
  intro t ht
  rcases List.mem_singleton.mp ht with rfl
  exact hx

/-- All members of a two-element list satisfy a predicate both elements
satisfy. -/
theorem forall_mem_pair {P : MgmtErrorInfoTag → Prop} {x y : MgmtErrorInfoTag}
    (hx : P x) (hy : P y) : ∀ t ∈ [x, y], P t := by
  intro t ht
  rcases List.mem_cons.mp ht with rfl | ht2
  · exact hx
  rcases List.mem_singleton.mp ht2 with rfl
  exact hy

/-- Every record produced by a public constructor carries the `rpc-error`
XML name, and its info tags satisfy the JSON codec side condition as soon
as the caller-controlled local names of `NewPathAmbiguousError` are
colon-free. -/
theorem ctorRecord_ok (c : Ctor) (r : MgmtError)
    (h : ctorRecord c = some r) (hn : ctorInfoNamesColonFree c) :
    r.XMLName = rpcErrorXMLName ∧ ∀ t ∈ r.Info, infoTagOk t := by
  cases c <;> (injection h with h; subst h) <;> refine ⟨rfl, ?_⟩
  case nonUnique paths =>
    intro t ht
    rcases List.mem_map.mp ht with ⟨p, _, rfl⟩
    exact ⟨of_decide_eq_true rfl, Or.inr (Or.inr (Or.inl rfl))⟩
  case missingChoice p n =>
    exact forall_mem_one ⟨of_decide_eq_true rfl, Or.inr (Or.inr (Or.inl rfl))⟩
  case pathAmbiguous p ms =>
    intro t ht
    rcases List.mem_map.mp ht with ⟨m, hm, rfl⟩
    exact ⟨hn m hm, Or.inr (Or.inr (Or.inr rfl))⟩
  all_goals
    first
    | exact List.forall_mem_nil _
    | exact forall_mem_one ⟨of_decide_eq_true rfl, Or.inl rfl⟩
    | exact forall_mem_pair ⟨of_decide_eq_true rfl, Or.inl rfl⟩
        ⟨of_decide_eq_true rfl, Or.inl rfl⟩

/-! ## Claim theorems -/

/-- C1 (amended): for every typed error built by a public constructor,
JSON-marshalling and unmarshalling restores the canonical record field
for field, and XML-marshalling then decoding does the same, provided
every info-tag local name is colon-free — a condition every constructor
satisfies except `NewPathAmbiguousError` when a match name contains a
colon. -/
theorem claim_C1_constructor_roundtrip (c : Ctor) (r : MgmtError)
    (h : ctorRecord c = some r) (hn : ctorInfoNamesColonFree c) :
    mgmtErrorUnmarshalJSON (mgmtErrorMarshalJSON r) = some r ∧
    mgmtErrorUnmarshalXML (mgmtErrorMarshalXML r) = some r := by
  obtain ⟨hx, hi⟩ := ctorRecord_ok c r h hn
  exact ⟨mgmtError_json_roundtrip r hx hi, mgmtError_xml_roundtrip r⟩

/-- C1 witness: the round-trip theorem applied to the concrete record of
`NewLockDeniedError("1234")`. -/
theorem claim_C1_constructor_roundtrip_witness :
    ctorRecord (Ctor.lockDenied "1234") = some
      { XMLName := rpcErrorXMLName, Typ := "protocol", Tag := "lock-denied",
        Severity := "error", AppTag := "", Path := "",
        Message := msg_nc_lock_denied,
        Info := [{ XMLName := { Space := "", Local := "session-id" },
                   Value := "1234" }] } ∧
    (mgmtErrorUnmarshalJSON (mgmtErrorMarshalJSON
      { XMLName := rpcErrorXMLName, Typ := "protocol", Tag := "lock-denied",
        Severity := "error", AppTag := "", Path := "",
        Message := msg_nc_lock_denied,
        Info := [{ XMLName := { Space := "", Local := "session-id" },
                   Value := "1234" }] }) = some
      { XMLName := rpcErrorXMLName, Typ := "protocol", Tag := "lock-denied",
        Severity := "error", AppTag := "", Path := "",
        Message := msg_nc_lock_denied,
        Info := [{ XMLName := { Space := "", Local := "session-id" },
                   Value := "1234" }] } ∧
     mgmtErrorUnmarshalXML (mgmtErrorMarshalXML
      { XMLName := rpcErrorXMLName, Typ := "protocol", Tag := "lock-denied",
        Severity := "error", AppTag := "", Path := "",
        Message := msg_nc_lock_denied,
        Info := [{ XMLName := { Space := "", Local := "session-id" },
                   Value := "1234" }] }) = some
      { XMLName := rpcErrorXMLName, Typ := "protocol", Tag := "lock-denied",
        Severity := "error", AppTag := "", Path := "",
        Message := msg_nc_lock_denied,
        Info := [{ XMLName := { Space := "", Local := "session-id" },
                   Value := "1234" }] }) :=
  ⟨rfl, claim_C1_constructor_roundtrip (Ctor.lockDenied "1234") _ rfl True.intro⟩

/-- C1 counterexample: the claim as stated fails — the record built by
`NewPathAmbiguousError(["p"], {"a:b": "h"})` does not survive the JSON
round trip, because the decoder splits the encoded key
`vyatta-yang:a:b` at every colon. -/
theorem claim_C1_counterexample :
    ctorRecord (Ctor.pathAmbiguous ["p"] [("a:b", "h")]) = some
      { XMLName := rpcErrorXMLName, Typ := "application",
        Tag := "operation-failed", Severity := "error",
        AppTag := "path-ambiguous", Path := "/p",
        Message := msg_yang_operation_failed,
        Info := [{ XMLName := { Space := VyattaNamespace, Local := "a:b" },
                   Value := "h" }] } ∧
    mgmtErrorUnmarshalJSON (mgmtErrorMarshalJSON
      { XMLName := rpcErrorXMLName, Typ := "application",
        Tag := "operation-failed", Severity := "error",
        AppTag := "path-ambiguous", Path := "/p",
        Message := msg_yang_operation_failed,
        Info := [{ XMLName := { Space := VyattaNamespace, Local := "a:b" },
                   Value := "h" }] }) ≠ some
      { XMLName := rpcErrorXMLName, Typ := "application",
        Tag := "operation-failed", Severity := "error",
        AppTag := "path-ambiguous", Path := "/p",
        Message := msg_yang_operation_failed,
        Info := [{ XMLName := { Space := VyattaNamespace, Local := "a:b" },
                   Value := "h" }] } :=
  ⟨rfl, by decide⟩

/-- C2: a deserialized record with tag `operation-failed`, type
`application` and app tag `exec-failed` is classified as the vendor
`ExecError` wrapper — even though the base-protocol catalog also matches
that tag and type pair, as the second conjunct shows. -/
theorem claim_C2_vendor_precedence (e : MgmtError)
    (htag : e.Tag = "operation-failed") (htyp : e.Typ = "application")
    (happ : e.AppTag = "exec-failed") :
    classifyMgmtError e = .vyatta .createExecError e ∧
    getNetconfError e = some (.createOperationFailedApplicationError, e) := by
  constructor
  · simp [classifyMgmtError, getVyattaError, htag, happ,
      lookupStr, lookupNat, vyErrTagMap, vyErrTable, vyErrAppTagMap,
      exec_failed, path_ambig, vyatta_operation_failed]
  · simp [getNetconfError, htag, htyp, lookupStr, lookupNat, ncerrtagmap,
      ncErrTable, errtypemap, in_use, invalid_value, too_big,
      missing_attribute, bad_attribute, unknown_attribute, missing_element,
      bad_element, unknown_element, unknown_namespace, access_denied,
      lock_denied, resource_denied, rollback_failed, data_exists,
      data_missing, operation_not_supported, operation_failed,
      malformed_message, transport, rpc, protocol, application]

/-- C2 witness: the precedence theorem applied to a concrete deserialized
record. -/
theorem claim_C2_vendor_precedence_witness :
    classifyMgmtError { newMgmtError with
                        Tag := "operation-failed",
                        Typ := "application", AppTag := "exec-failed" } =
      Classified.vyatta .createExecError
        { newMgmtError with
          Tag := "operation-failed",
          Typ := "application", AppTag := "exec-failed" } ∧
    getNetconfError { newMgmtError with
                      Tag := "operation-failed",
                      Typ := "application", AppTag := "exec-failed" } =
      some (.createOperationFailedApplicationError,
        { newMgmtError with
          Tag := "operation-failed",
          Typ := "application", AppTag := "exec-failed" }) :=
  claim_C2_vendor_precedence _ rfl rfl rfl

/-- C3 counterexample: the claim as stated fails — constructing a YANG
record with the app tag `bogus-app-tag`, a combination absent from the
owning catalog's sub-table, succeeds instead of failing. -/
theorem claim_C3_counterexample :
    lookupStr yerrapptagmap "bogus-app-tag" = none ∧
    setYangError newMgmtError yang_operation_failed "bogus-app-tag" "" "" none =
      .ok { XMLName := rpcErrorXMLName, Typ := "application",
            Tag := "operation-failed", Severity := "error",
            AppTag := "bogus-app-tag", Path := "",
            Message := msg_yang_operation_failed, Info := [] } :=
  ⟨rfl, rfl⟩

/-- C3 (amended): the base-protocol construction path distinguishes the
three failure conditions — unrecognised tag, unrecognised type, and type
not legal for the tag — but no construction path validates the app tag:
the YANG and vendor setters check only the tag and accept any app-tag
string. -/
theorem claim_C3_construction_failures :
    (∀ e tag typ apptag path info, lookupNat ncErrTable tag = none →
      setNcError e tag typ apptag path info = .error .invalid_error_tag) ∧
    (∀ e tag typ apptag path info ent, lookupNat ncErrTable tag = some ent →
      lookupStr errtypemap typ = none →
      setNcError e tag typ apptag path info = .error .invalid_error_type) ∧
    (∀ e tag typ apptag path info ent tid,
      lookupNat ncErrTable tag = some ent →
      lookupStr errtypemap typ = some tid → lookupNat ent.typ tid = none →
      setNcError e tag typ apptag path info = .error .invalid_error_tag_type) ∧
    (∀ e tag apptag path yangPath info ent,
      lookupNat yangErrTable tag = some ent →
      ∃ r, setYangError e tag apptag path yangPath info = .ok r ∧
           r.AppTag = apptag) ∧
    (∀ e tag apptag path info ent, lookupNat vyErrTable tag = some ent →
      ∃ r, setVyattaError e tag apptag path info = .ok r ∧
           r.AppTag = apptag) := by
  refine ⟨?_, ?_, ?_, ?_, ?_⟩
  · intro e tag typ apptag path info h
    simp [setNcError, h]
  · intro e tag typ apptag path info ent h1 h2
    simp [setNcError, h1, h2]
  · intro e tag typ apptag path info ent tid h1 h2 h3
    simp [setNcError, h1, h2, h3]
  · intro e tag apptag path yangPath info ent h
    refine ⟨{ e with
              Tag := yerrtagString tag, Typ := "application",
              Severity := yerrseverityString ent.severity,
              Message := ent.msg, AppTag := apptag, Path := path,
              Info := match info with | some i => i | none => e.Info },
            ?_, rfl⟩
    unfold setYangError
    rw [h]
  · intro e tag apptag path info ent h
    refine ⟨{ e with
              Tag := vyErrTagString tag, Typ := "application",
              Severity := yerrseverityString ent.severity,
              Message := ent.msg, AppTag := apptag, Path := path,
              Info := match info with | some i => i | none => e.Info },
            ?_, rfl⟩
    unfold setVyattaError
    rw [h]

/-- C3 witness: the three failure conditions and the missing app-tag
validation exhibited at concrete inputs. -/
theorem claim_C3_construction_failures_witness :
    setNcError newMgmtError 999 "protocol" "" "" none =
      .error .invalid_error_tag ∧
    setNcError newMgmtError in_use "bogus-type" "" "" none =
      .error .invalid_error_type ∧
    setNcError newMgmtError data_exists "protocol" "" "" none =
      .error .invalid_error_tag_type ∧
    (∃ r, setYangError newMgmtError yang_operation_failed "bogus-app-tag"
        "" "" none = .ok r ∧ r.AppTag = "bogus-app-tag") ∧
    (∃ r, setVyattaError newMgmtError vyatta_operation_failed
        "also-bogus" "" none = .ok r ∧ r.AppTag = "also-bogus") :=
  ⟨claim_C3_construction_failures.1 newMgmtError 999 "protocol" "" "" none rfl,
   claim_C3_construction_failures.2.1 newMgmtError in_use "bogus-type" "" ""
     none _ rfl rfl,
   claim_C3_construction_failures.2.2.1 newMgmtError data_exists "protocol"
     "" "" none _ _ rfl rfl rfl,
   claim_C3_construction_failures.2.2.2.1 newMgmtError yang_operation_failed
     "bogus-app-tag" "" "" none _ rfl,
   claim_C3_construction_failures.2.2.2.2 newMgmtError vyatta_operation_failed
     "also-bogus" "" none _ rfl⟩

/-- C4 counterexample: the claim as stated fails — a tag with the unknown
namespace `foo` is not passed through unprefixed (its key is `foo:bar`,
not `bar`), and a tag with the colon-containing unknown namespace `urn:x`
does not survive encode-then-decode, because decoding splits at every
colon and requires exactly two parts. -/
theorem claim_C4_counterexample :
    infoTagKey (NewMgmtErrorInfoTag "foo" "bar" "v") = "foo:bar" ∧
    infoTagKey (NewMgmtErrorInfoTag "foo" "bar" "v") ≠ "bar" ∧
    lookupModule "foo" = "foo" ∧
    infoTagUnmarshalJSON (infoTagMarshalJSON (NewMgmtErrorInfoTag "urn:x" "n" "v")) =
      some (NewMgmtErrorInfoTag "" "urn" "v") ∧
    NewMgmtErrorInfoTag "" "urn" "v" ≠ NewMgmtErrorInfoTag "urn:x" "n" "v" := by
  refine ⟨by decide, by decide, by decide, by decide, by decide⟩

/-- C4 (amended): the JSON info-tag codec encodes an empty namespace as
the bare local name and any non-empty namespace — known or unknown — as
`lookupModule(namespace)` plus a colon plus the local name, so an unknown
namespace appears literally as the prefix; decoding splits the key at
every colon and accepts exactly two parts, mapping an unrecognized
colon-free prefix back as a literal namespace string; encode-then-decode
recovers the triple when the local name is colon-free and the namespace
is empty or one of the three table entries. -/
theorem claim_C4_info_codec :
    (∀ t : MgmtErrorInfoTag, t.XMLName.Space = "" →
      infoTagKey t = t.XMLName.Local) ∧
    (∀ t : MgmtErrorInfoTag, t.XMLName.Space ≠ "" →
      infoTagKey t = lookupModule t.XMLName.Space ++ ":" ++ t.XMLName.Local) ∧
    (∀ t, infoTagOk t → infoTagUnmarshalJSON (infoTagMarshalJSON t) = some t) ∧
    (∀ p loc v, ':' ∉ p.data → ':' ∉ loc.data → lookupNamespace p = p →
      infoTagUnmarshalJSON (.obj [(p ++ ":" ++ loc, .str v)]) =
        some { XMLName := { Space := p, Local := loc }, Value := v }) := by
  refine ⟨?_, ?_, infoTag_json_roundtrip, ?_⟩
  · intro t h
    simp [infoTagKey, h]
  · intro t h
    have hd : t.XMLName.Space.data ≠ [] := by
      intro hnil
      exact h (by rw [← mk_data t.XMLName.Space, hnil])
    have : 0 < t.XMLName.Space.length :=
      List.length_pos.mpr hd
    simp [infoTagKey, this]
  · intro p loc v hp hl hlook
    simp only [infoTagUnmarshalJSON, stringSplitColon_key p loc hp hl]
    simp [hlook]

/-- C4 witness: the codec theorem applied to concrete tags — an empty
namespace, a known namespace round-trip, and an unknown colon-free
prefix decoded as a literal namespace. -/
theorem claim_C4_info_codec_witness :
    infoTagKey (NewMgmtErrorInfoTag "" "bad-element" "x") = "bad-element" ∧
    infoTagKey (NewMgmtErrorInfoTag yang_namespace "non-unique" "x") =
      lookupModule yang_namespace ++ ":" ++ "non-unique" ∧
    infoTagUnmarshalJSON (infoTagMarshalJSON
      (NewMgmtErrorInfoTag yang_namespace "non-unique" "/a/b")) =
      some (NewMgmtErrorInfoTag yang_namespace "non-unique" "/a/b") ∧
    infoTagUnmarshalJSON (.obj [("my-prefix" ++ ":" ++ "leaf", .str "v")]) =
      some { XMLName := { Space := "my-prefix", Local := "leaf" },
             Value := "v" } :=
  ⟨claim_C4_info_codec.1 _ rfl,
   claim_C4_info_codec.2.1 _ (by decide),
   claim_C4_info_codec.2.2.1 _ ⟨by decide, Or.inr (Or.inr (Or.inl rfl))⟩,
   claim_C4_info_codec.2.2.2 "my-prefix" "leaf" "v"
     (by decide) (by decide) (by decide)⟩

/-- C5: `NewLeafrefMismatchError(path, lrefPath)` does not depend on its
second parameter — the referenced path is silently discarded — and its
record is field-for-field the record of `NewInstanceRequiredError(path)`,
with tag `data-missing` and app tag `instance-required`. -/
theorem claim_C5_leafref_discards_lrefPath (path lrefPath lrefPath2 : String) :
    NewLeafrefMismatchError path lrefPath =
      NewLeafrefMismatchError path lrefPath2 ∧
    NewLeafrefMismatchError path lrefPath = NewInstanceRequiredError path ∧
    (∀ r, NewLeafrefMismatchError path lrefPath = some r →
      r.Tag = "data-missing" ∧ r.AppTag = "instance-required") := by
  refine ⟨rfl, rfl, ?_⟩
  intro r h
  injection h with h
  subst h
  exact ⟨rfl, rfl⟩

/-- C5 witness: the theorem applied at concrete paths. -/
theorem claim_C5_leafref_discards_lrefPath_witness :
    NewLeafrefMismatchError "/interfaces/eth0" "/referenced/a" =
      NewLeafrefMismatchError "/interfaces/eth0" "/referenced/b" ∧
    NewLeafrefMismatchError "/interfaces/eth0" "/referenced/a" =
      NewInstanceRequiredError "/interfaces/eth0" ∧
    (∀ r, NewLeafrefMismatchError "/interfaces/eth0" "/referenced/a" = some r →
      r.Tag = "data-missing" ∧ r.AppTag = "instance-required") :=
  claim_C5_leafref_discards_lrefPath "/interfaces/eth0" "/referenced/a"
    "/referenced/b"

/-- C6: `mkMgmtError` passes marshal-capable values through unchanged,
wraps a `Formattable` value in a generic operation-failed/application
record carrying over its message and path, and wraps a plain error in the
same record with its string as the message and an empty path. -/
theorem claim_C6_mkMgmtError_normalization :
    (∀ e : MgmtError, mkMgmtError (.marshalable e) = .marshalable e) ∧
    (∀ f : FormattableData, mkMgmtError (.formattable f) =
      .marshalable { XMLName := rpcErrorXMLName, Typ := "application",
                     Tag := "operation-failed", Severity := "error",
                     AppTag := "", Path := f.path, Message := f.message,
                     Info := [] }) ∧
    (∀ s : String, mkMgmtError (.plain s) =
      .marshalable { XMLName := rpcErrorXMLName, Typ := "application",
                     Tag := "operation-failed", Severity := "error",
                     AppTag := "", Path := "", Message := s,
                     Info := [] }) :=
  ⟨fun _ => rfl, fun _ => rfl, fun _ => rfl⟩

/-- Two strings with the same character data are equal. -/
theorem strEq_of_data {a b : String} (h : a.data = b.data) : a = b := by
  rw [← mk_data a, ← mk_data b, h]

/-- String append is associative. -/
theorem strAppend_assoc (a b c : String) : a ++ b ++ c = a ++ (b ++ c) := by
  apply strEq_of_data
  simp [data_append]

/-- The first-member flag loop of `MgmtErrorList.MarshalJSON` produces
exactly the comma-joined rendering of the members. -/
theorem mgmtErrorListJSONBody_renders (l : List MgmtError) :
    mgmtErrorListJSONBody true l =
      renderJValList (l.map mgmtErrorMarshalJSON) ∧
    mgmtErrorListJSONBody false l =
      (match l with
       | [] => ""
       | _ => "," ++ renderJValList (l.map mgmtErrorMarshalJSON)) := by
  induction l with
  | nil => exact ⟨rfl, rfl⟩
  | cons e rest ih =>
    cases rest with
    | nil =>
      constructor
      · show "" ++ renderJVal (mgmtErrorMarshalJSON e) ++ "" = _
        rw [strAppendEmpty]
        rfl
      · show "," ++ renderJVal (mgmtErrorMarshalJSON e) ++ "" = _
        rw [strAppendEmpty]
        rfl
    | cons e2 rest2 =>
      constructor
      · show "" ++ renderJVal (mgmtErrorMarshalJSON e)
            ++ mgmtErrorListJSONBody false (e2 :: rest2) = _
        rw [ih.2]
        apply strEq_of_data
        simp [renderJValList, data_append]
      · show "," ++ renderJVal (mgmtErrorMarshalJSON e)
            ++ mgmtErrorListJSONBody false (e2 :: rest2) = _
        rw [ih.2]
        apply strEq_of_data
        simp [renderJValList, data_append]

/-- C7: an error list JSON-encodes as a single object wrapping the
comma-joined members under one `error-list` array key, while its XML
encoding is one sibling element per member with no wrapping element — in
insertion order in both formats. -/
theorem claim_C7_list_wire_shape (errs : List MgmtError) :
    mgmtErrorListMarshalJSON errs =
      "\x7b\"error-list\":[" ++
        renderJValList (errs.map mgmtErrorMarshalJSON) ++ "]\x7d" ∧
    mgmtErrorListMarshalXML errs = errs.map mgmtErrorMarshalXML := by
  constructor
  · unfold mgmtErrorListMarshalJSON
    rw [(mgmtErrorListJSONBody_renders errs).1]
  · induction errs with
    | nil => rfl
    | cons e rest ih => simp [mgmtErrorListMarshalXML, ih]

/-- C8: for every canonical record (severity `error` or `warning`),
`Error()` has the shape capitalized severity, `": "`, the path followed
by `": "` when non-empty, then the message. -/
theorem claim_C8_error_shape (e : MgmtError)
    (h : e.Severity = "error" ∨ e.Severity = "warning") :
    mgmtErrorErrorString e =
      capitalizeFirst e.Severity ++ ": " ++
      (if e.Path = "" then "" else e.Path ++ ": ") ++ e.Message := by
  have he : stringsTitle "error" = capitalizeFirst "error" := by decide
  have hw : stringsTitle "warning" = capitalizeFirst "warning" := by decide
  by_cases hP : e.Path = "" <;> by_cases hM : e.Message = "" <;>
    rcases h with h | h <;>
    simp [mgmtErrorErrorString, error_msg_separator, h, hP, hM, he, hw,
      strAppendEmpty]

/-- C8 witness: the shape theorem applied to a concrete record. -/
theorem claim_C8_error_shape_witness :
    mgmtErrorErrorString { newMgmtError with
                           Severity := "error",
                           Path := "/a/b", Message := "boom" } =
      capitalizeFirst "error" ++ ": " ++
      (if ("/a/b" : String) = "" then "" else "/a/b" ++ ": ") ++ "boom" :=
  claim_C8_error_shape
    { newMgmtError with
      Severity := "error", Path := "/a/b", Message := "boom" } (Or.inl rfl)

/-- C9: the unknown-element and missing-element render functions read
`Info[0]` unconditionally — they are undefined exactly on records with an
empty info list; every record built by the corresponding constructors
carries one info entry, while the deserialization path performs no arity
validation and can produce an unknown-element record with zero info
entries. -/
theorem claim_C9_info_zero_access :
    (∀ e : MgmtError, e.Info = [] →
      unknownElemErrorString e = none ∧ missingElemErrorString e = none ∧
      unknownElementGetMessage e = none) ∧
    (∀ e : MgmtError, e.Info ≠ [] →
      (unknownElemErrorString e).isSome ∧ (missingElemErrorString e).isSome ∧
      (unknownElementGetMessage e).isSome) ∧
    (∀ b r, NewUnknownElementProtocolError b = some r → r.Info ≠ []) ∧
    (∀ b r, NewUnknownElementApplicationError b = some r → r.Info ≠ []) ∧
    (∀ b r, NewMissingElementProtocolError b = some r → r.Info ≠ []) ∧
    (∀ b r, NewMissingElementApplicationError b = some r → r.Info ≠ []) ∧
    (mgmtErrorUnmarshalJSON (.obj [("error-type", .str "protocol"),
        ("error-tag", .str "unknown-element")]) =
      some { newMgmtError with Typ := "protocol",
                               Tag := "unknown-element" } ∧
      ({ newMgmtError with Typ := "protocol",
                           Tag := "unknown-element" } : MgmtError).Info = []) := by
  refine ⟨?_, ?_, ?_, ?_, ?_, ?_, by decide, rfl⟩
  · intro e h
    simp [unknownElemErrorString, missingElemErrorString,
      unknownElementGetMessage, h]
  · intro e h
    match hi : e.Info with
    | [] => exact absurd hi h
    | t :: ts =>
      simp [unknownElemErrorString, missingElemErrorString,
        unknownElementGetMessage, hi]
  · intro b r h
    injection h with h
    subst h
    simp
  · intro b r h
    injection h with h
    subst h
    simp
  · intro b r h
    injection h with h
    subst h
    simp
  · intro b r h
    injection h with h
    subst h
    simp

/-- C9 witness: the accessors applied at concrete records — defined on
the constructor-built record, undefined on the record recovered from a
zero-info wire payload. -/
theorem claim_C9_info_zero_access_witness :
    (unknownElemErrorString { newMgmtError with Info := [] } = none ∧
     missingElemErrorString { newMgmtError with Info := [] } = none ∧
     unknownElementGetMessage { newMgmtError with Info := [] } = none) ∧
    ((unknownElemErrorString { newMgmtError with
        Info := [{ XMLName := { Space := "", Local := "bad-element" },
                   Value := "biz" }] }).isSome ∧
     (missingElemErrorString { newMgmtError with
        Info := [{ XMLName := { Space := "", Local := "bad-element" },
                   Value := "biz" }] }).isSome ∧
     (unknownElementGetMessage { newMgmtError with
        Info := [{ XMLName := { Space := "", Local := "bad-element" },
                   Value := "biz" }] }).isSome) ∧
    (∀ r, NewUnknownElementProtocolError "biz" = some r → r.Info ≠ []) :=
  ⟨claim_C9_info_zero_access.1 _ rfl,
   claim_C9_info_zero_access.2.1 _ (by decide),
   fun r h => claim_C9_info_zero_access.2.2.1 "biz" r h⟩

/-- The model string order is total. -/
theorem charListLeB_total : ∀ a b, charListLeB a b = true ∨ charListLeB b a = true
  | [], _ => Or.inl rfl
  | _ :: _, [] => Or.inr rfl
  | c1 :: t1, c2 :: t2 => by
    simp only [charListLeB]
    by_cases h : c1 = c2
    · subst h
      simpa using charListLeB_total t1 t2
    · have hne : c1.toNat ≠ c2.toNat := by
        intro hn
        exact h (Char.ext (UInt32.ext hn))
      rcases Nat.lt_or_ge c1.toNat c2.toNat with hlt | hge
      · left
        simp [h, hlt]
      · right
        have : c2.toNat < c1.toNat := Nat.lt_of_le_of_ne hge (Ne.symm hne)
        simp [Ne.symm h, this]

/-- The model string order is antisymmetric. -/
theorem charListLeB_antisymm :
    ∀ a b, charListLeB a b = true → charListLeB b a = true → a = b
  | [], [], _, _ => rfl
  | _ :: _, [], h, _ => by simp [charListLeB] at h
  | [], _ :: _, _, h => by simp [charListLeB] at h
  | c1 :: t1, c2 :: t2, h1, h2 => by
    simp only [charListLeB] at h1 h2
    by_cases h : c1 = c2
    · subst h
      simp only [if_pos rfl] at h1 h2
      rw [charListLeB_antisymm t1 t2 h1 h2]
    · rw [if_neg h] at h1
      rw [if_neg (Ne.symm h)] at h2
      simp at h1 h2
      omega

/-- The model string order is transitive. -/
theorem charListLeB_trans :
    ∀ a b c, charListLeB a b = true → charListLeB b c = true →
      charListLeB a c = true
  | [], _, _, _, _ => rfl
  | _ :: _, [], _, h, _ => by simp [charListLeB] at h
  | _ :: _, _ :: _, [], _, h => by simp [charListLeB] at h
  | c1 :: t1, c2 :: t2, c3 :: t3, h1, h2 => by
    simp only [charListLeB] at h1 h2 ⊢
    by_cases e12 : c1 = c2 <;> by_cases e23 : c2 = c3
    · subst e12
      subst e23
      simp only [if_pos rfl] at h1 h2 ⊢
      exact charListLeB_trans t1 t2 t3 h1 h2
    · subst e12
      simp only [if_pos rfl] at h1
      rw [if_neg e23] at h2 ⊢
      exact h2
    · subst e23
      rw [if_neg e12] at h1 ⊢
      exact h1
    · rw [if_neg e12] at h1
      rw [if_neg e23] at h2
      simp at h1 h2
      have e13 : c1 ≠ c3 := by
        intro h
        subst h
        omega
      rw [if_neg e13]
      simp
      omega

instance : IsTotal String natsortLe :=
  ⟨fun a b => charListLeB_total a.data b.data⟩

instance : IsTrans String natsortLe :=
  ⟨fun a b c => charListLeB_trans a.data b.data c.data⟩

instance : IsAntisymm String natsortLe :=
  ⟨fun a b h1 h2 => strEq_of_data (charListLeB_antisymm a.data b.data h1 h2)⟩

/-- The sort at the heart of `PathAmbiguousError.Error` maps permutations
of its input to the same output list. -/
theorem natsortSort_perm_eq (l₁ l₂ : List String) (h : l₁.Perm l₂) :
    natsortSort l₁ = natsortSort l₂ :=
  List.eq_of_perm_of_sorted (r := natsortLe)
    (((List.perm_insertionSort _ l₁).trans h).trans
      (List.perm_insertionSort _ l₂).symm)
    (List.sorted_insertionSort _ l₁)
    (List.sorted_insertionSort _ l₂)

/-- C10: `Error()` on `NewPathAmbiguousError(path, matches)` is a
deterministic function of the path and the set of match pairs — two map
iteration orders (permutations of the pair list) render identically,
because the match names are sorted before being comma-joined — and the
prefix is `Ambiguous command` for an empty path and the path followed by
`Ambiguous path` otherwise. -/
theorem claim_C10_pathAmbiguous_deterministic
    (path : List String) (m1 m2 : List (String × String)) (e1 e2 : MgmtError)
    (hperm : m1.Perm m2)
    (h1 : NewPathAmbiguousError path m1 = some e1)
    (h2 : NewPathAmbiguousError path m2 = some e2) :
    pathAmbiguousErrorString e1 = pathAmbiguousErrorString e2 ∧
    (path = [] →
      pathAmbiguousErrorString e1 =
        "Error: Ambiguous command, could be one of: " ++
        String.intercalate ", " (natsortSort (m1.map Prod.fst))) ∧
    (path ≠ [] →
      pathAmbiguousErrorString e1 =
        "Error: " ++ pathutilPathstr path ++
        ": Ambiguous path, could be one of: " ++
        String.intercalate ", " (natsortSort (m1.map Prod.fst))) := by
  injection h1 with h1
  injection h2 with h2
  subst h1
  subst h2
  have hmap : ∀ (m : List (String × String)),
      (m.map (fun p => NewMgmtErrorInfoTag VyattaNamespace p.1 p.2)).map
        (fun t => t.XMLName.Local) = m.map Prod.fst := by
    intro m
    induction m with
    | nil => rfl
    | cons p rest ih => simp [NewMgmtErrorInfoTag, ih]
  have hsort : natsortSort (m1.map Prod.fst) = natsortSort (m2.map Prod.fst) :=
    natsortSort_perm_eq _ _ (hperm.map Prod.fst)
  have hsev : stringsTitle (yerrseverityString yang_severity_error) =
      "Error" := by decide
  refine ⟨?_, ?_, ?_⟩
  · simp only [pathAmbiguousErrorString, hmap, hsort]
  · intro hp
    subst hp
    simp only [pathAmbiguousErrorString, hmap, hsev, error_msg_separator]
    rw [show (pathutilPathstr []).length = 0 from rfl]
    simp only [if_pos rfl]
    apply strEq_of_data
    simp [data_append, List.append_assoc]
  · intro hp
    match path, hp with
    | x :: xs, _ =>
      simp only [pathAmbiguousErrorString, hmap, hsev, error_msg_separator]
      have hne : ¬((pathutilPathstr (x :: xs)).length = 0) := by
        show ¬(("/" ++ String.intercalate "/" (x :: xs)).length = 0)
        show ¬(('/' :: (String.intercalate "/" (x :: xs)).data).length = 0)
        simp
      rw [if_neg hne]
      apply strEq_of_data
      simp [data_append, List.append_assoc]

/-- C10 witness: two iteration orders of the same concrete matches map
render identically, with the expected prefixes for a non-empty and an
empty path. -/
theorem claim_C10_pathAmbiguous_deterministic_witness :
    List.Perm [("system", "S"), ("service", "Se")]
      [("service", "Se"), ("system", "S")] ∧
    (∀ e1 e2,
      NewPathAmbiguousError ["s"] [("system", "S"), ("service", "Se")] =
        some e1 →
      NewPathAmbiguousError ["s"] [("service", "Se"), ("system", "S")] =
        some e2 →
      pathAmbiguousErrorString e1 = pathAmbiguousErrorString e2) :=
  ⟨by decide,
   fun e1 e2 h1 h2 =>
     (claim_C10_pathAmbiguous_deterministic ["s"]
       [("system", "S"), ("service", "Se")]
       [("service", "Se"), ("system", "S")] e1 e2 (by decide) h1 h2).1⟩
